import Mathlib

/-!
Shallow embedding of the accounting core of the `perp-dex` repository
(`src/app/src`): the data model (`types.rs`, `lib.rs`), the oracle module
(`modules/oracle.rs`), the liquidity-pool module (`modules/market.rs`),
the fee-accrual module (`modules/risk.rs`), the position manager
(`modules/position.rs`), the order state machine (`modules/trading.rs`)
and the wallet service (`services/wallet_service.rs`).

Machine integers are embedded as `Nat` (for `u128`/`u64`) and `Int`
(for `i128`), with Rust's saturating operations made explicit as clamps
to the corresponding ranges, Rust's `as` casts made explicit, and Rust's
signed division embedded as `Int.tdiv` (truncation toward zero).
Mutation of the global `PerpetualDEXState` is embedded by explicit state
passing: every operation takes a `DexState` and returns the pair of its
`Result` and the state as left behind by the call, including states left
behind by early `return Err(...)` paths.
-/

set_option maxRecDepth 40000

namespace PerpDex

/-! ## Scalars and machine arithmetic -/

def USD_SCALE : Nat := 1000000

def U128_MAX : Nat := 2 ^ 128 - 1

def I128_MAX : Int := 2 ^ 127 - 1

def I128_MIN : Int := -(2 ^ 127)

/-- Rust `u128::saturating_add`. -/
def satAdd (a b : Nat) : Nat := min (a + b) U128_MAX

/-- Rust `u128::saturating_sub` (`Nat` subtraction already clamps at zero). -/
def satSub (a b : Nat) : Nat := a - b

/-- Rust `u128::saturating_mul`. -/
def satMul (a b : Nat) : Nat := min (a * b) U128_MAX

/-- Clamp an integer into the `i128` range. -/
def clampI (x : Int) : Int := max I128_MIN (min I128_MAX x)

/-- Rust `i128::saturating_add`. -/
def satAddI (a b : Int) : Int := clampI (a + b)

/-- Rust `i128::saturating_sub`. -/
def satSubI (a b : Int) : Int := clampI (a - b)

/-- Rust `i128::saturating_mul`. -/
def satMulI (a b : Int) : Int := clampI (a * b)

/-- Rust `u128 as i128` cast (wraps on values at or above `2^127`). -/
def u128AsI128 (n : Nat) : Int := if n < 2 ^ 127 then (n : Int) else (n : Int) - 2 ^ 128

/-- Rust `i128 as u128` cast (wraps on negative values). -/
def i128AsU128 (x : Int) : Nat := (x % 2 ^ 128).toNat

/-- Rust wrapping `u128` addition (used where the source adds without `saturating_add`). -/
def wAdd (a b : Nat) : Nat := (a + b) % 2 ^ 128

/-- Rust `i128` division truncates toward zero. -/
def divI (a b : Int) : Int := Int.tdiv a b

/-! ## Data model (`types.rs`, `lib.rs`)

`ActorId` is embedded as `Nat`.  The Rust `H256` position key is the keccak
hash of `(account, market, collateral_token, is_long)`; the hash is embedded
as the (collision-free) tuple itself.  The `H256` request key is generated
from the `next_request_id` counter and is embedded as that counter value. -/

abbrev ActorId := Nat

abbrev RequestKey := Nat

structure PositionKey where
  account : ActorId
  market : String
  collateral_token : String
  is_long : Bool
  deriving DecidableEq, Repr

structure Market where
  market_token : ActorId
  index_token : String
  long_token : String
  short_token : String
  deriving DecidableEq, Repr

structure MarketConfig where
  pi_factor_positive : Nat
  pi_factor_negative : Nat
  pi_exponent : Nat
  funding_factor : Nat
  funding_exponent : Nat
  funding_factor_above_kink : Nat
  optimal_imbalance_ratio : Nat
  borrowing_factor : Nat
  borrowing_exponent : Nat
  skip_borrowing_for_smaller_side : Bool
  trading_fee_bps : Nat
  max_leverage : Nat
  min_collateral_usd : Nat
  liquidation_threshold_bps : Nat
  reserve_factor_bps : Nat
  max_long_oi : Nat
  max_short_oi : Nat
  deriving DecidableEq, Repr

structure PoolAmounts where
  liquidity_usd : Nat
  claimable_fee_usd_long : Nat
  claimable_fee_usd_short : Nat
  long_oi_usd : Nat
  short_oi_usd : Nat
  position_impact_pool_usd : Nat
  swap_impact_pool_usd : Nat
  total_borrowing_fees_usd : Nat
  last_funding_update : Nat
  accumulated_funding_long_per_usd : Int
  accumulated_funding_short_per_usd : Int
  deriving DecidableEq, Repr

def PoolAmounts.default : PoolAmounts :=
  { liquidity_usd := 0, claimable_fee_usd_long := 0, claimable_fee_usd_short := 0,
    long_oi_usd := 0, short_oi_usd := 0, position_impact_pool_usd := 0,
    swap_impact_pool_usd := 0, total_borrowing_fees_usd := 0, last_funding_update := 0,
    accumulated_funding_long_per_usd := 0, accumulated_funding_short_per_usd := 0 }

structure Position where
  key : PositionKey
  account : ActorId
  market : String
  collateral_token : String
  is_long : Bool
  size_usd : Nat
  collateral_usd : Nat
  entry_price_usd : Nat
  liquidation_price_usd : Nat
  funding_fee_per_usd : Int
  borrowing_factor : Nat
  increased_at_block : Nat
  decreased_at_block : Nat
  last_fee_update : Nat
  deriving DecidableEq, Repr

inductive OrderType where
  | MarketIncrease
  | LimitIncrease
  | MarketDecrease
  | LimitDecrease
  | StopLossDecrease
  | MarketSwap
  | LimitSwap
  deriving DecidableEq, Repr

inductive OrderStatus where
  | Created
  | Executed
  | Cancelled
  | Frozen
  deriving DecidableEq, Repr

inductive OrderSide where
  | Long
  | Short
  deriving DecidableEq, Repr

structure Order where
  key : RequestKey
  account : ActorId
  receiver : ActorId
  market : String
  collateral_token : String
  order_type : OrderType
  size_delta_usd : Nat
  collateral_delta_amount : Nat
  trigger_price : Nat
  acceptable_price : Nat
  min_output_amount : Nat
  is_long : Bool
  is_frozen : Bool
  status : OrderStatus
  execution_fee : Nat
  created_at_block : Nat
  created_at_time : Nat
  updated_at_block : Nat
  updated_at_time : Nat
  deriving DecidableEq, Repr

structure CreateOrderParams where
  market : String
  collateral_token : String
  order_type : OrderType
  side : OrderSide
  size_delta_usd : Nat
  collateral_delta_amount : Nat
  trigger_price : Nat
  acceptable_price : Nat
  execution_fee : Nat
  deriving DecidableEq, Repr

structure UpdateOrderParams where
  size_delta_usd : Option Nat
  trigger_price : Option Nat
  acceptable_price : Option Nat
  deriving DecidableEq, Repr

inductive ExecutionResult where
  | Executed (position_key : PositionKey) (execution_price : Nat)
  | Saved (order_key : RequestKey)
  deriving DecidableEq, Repr

structure Price where
  min : Nat
  max : Nat
  deriving DecidableEq, Repr

structure OracleConfig where
  max_age_seconds : Nat
  deriving DecidableEq, Repr

structure OracleState where
  prices : String → Option Price
  timestamps : String → Option Nat
  last_signer : String → Option ActorId
  config : OracleConfig

structure SignedPrice where
  token : String
  price : Price
  timestamp : Nat
  signer : ActorId
  signature : List Nat
  deriving DecidableEq, Repr

/-- The union of the error variants used by the module sources (`errors.rs`
declares a subset of these; the module code under `src/app/src/modules` also
uses the variants listed after `MathOverflow`). -/
inductive Error where
  | Unauthorized
  | NotKeeper
  | NotLiquidator
  | NotAdmin
  | MarketNotFound
  | MarketAlreadyExists
  | PositionNotFound
  | PositionNotLiquidatable
  | InsufficientCollateral
  | InsufficientLiquidity
  | SlippageExceeded
  | PriceStale
  | InsufficientBalance
  | InsufficientMarketTokens
  | PriceNotAvailable
  | InvalidOracleSignature
  | InvalidParameter
  | MathOverflow
  | MaxOpenInterestExceeded
  | MaxLeverageExceeded
  | InsufficientPositionSize
  | InvalidPrice
  | InvalidOrderSize
  | InvalidCollateralAmount
  | OrderNotFound
  | OrderAlreadyProcessed
  | OrderCannotBeExecutedYet
  | UnsupportedOrderType
  | InsufficientOpenInterest
  | PriceNotAcceptable
  deriving DecidableEq, Repr

/-- Embedding of Rust `Result<A, Error>`. -/
inductive Res (α : Type) where
  | ok (a : α)
  | err (e : Error)
  deriving DecidableEq, Repr

structure MarketTokenInfo where
  total_supply : Nat
  balances : List (ActorId × Nat)
  deriving DecidableEq, Repr

def MarketTokenInfo.default : MarketTokenInfo := { total_supply := 0, balances := [] }

/-- The global `PerpetualDEXState` of `lib.rs`.  The `HashMap` tables are
embedded as functions to `Option`; the `Vec` lists keep their order. -/
structure DexState where
  markets : String → Option Market
  market_configs : String → Option MarketConfig
  pool_amounts : String → Option PoolAmounts
  market_tokens : String → Option MarketTokenInfo
  positions : PositionKey → Option Position
  account_positions : ActorId → List PositionKey
  orders : RequestKey → Option Order
  account_orders : ActorId → List RequestKey
  oracle : OracleState
  admin : ActorId
  keepers : List ActorId
  liquidators : List ActorId
  next_request_id : Nat
  balances : ActorId → Option Nat

def initState (admin : ActorId) : DexState :=
  { markets := fun _ => none
    market_configs := fun _ => none
    pool_amounts := fun _ => none
    market_tokens := fun _ => none
    positions := fun _ => none
    account_positions := fun _ => []
    orders := fun _ => none
    account_orders := fun _ => []
    oracle := { prices := fun _ => none, timestamps := fun _ => none,
                last_signer := fun _ => none, config := { max_age_seconds := 60 } }
    admin := admin
    keepers := []
    liquidators := []
    next_request_id := 1
    balances := fun _ => none }

def DexState.is_admin (st : DexState) (actor : ActorId) : Bool := st.admin = actor

def DexState.is_keeper (st : DexState) (actor : ActorId) : Bool := st.keepers.contains actor

def DexState.is_liquidator (st : DexState) (actor : ActorId) : Bool := st.liquidators.contains actor

/-- Point update of a string-keyed table. -/
def upd {α : Type} (m : String → Option α) (k : String) (v : Option α) : String → Option α :=
  fun x => if x = k then v else m x

/-- Point update of the position table. -/
def updP (m : PositionKey → Option Position) (k : PositionKey) (v : Option Position) :
    PositionKey → Option Position :=
  fun x => if x = k then v else m x

/-- Point update of a `Nat`-keyed table. -/
def updN {α : Type} (m : Nat → Option α) (k : Nat) (v : Option α) : Nat → Option α :=
  fun x => if x = k then v else m x

/-- Point update of the per-account list tables. -/
def updL {α : Type} (m : Nat → List α) (k : Nat) (v : List α) : Nat → List α :=
  fun x => if x = k then v else m x

/-! ## Oracle module (`modules/oracle.rs`) and `utils.rs` -/

/-- The signature-verification stub of `utils.rs`: accepts every input. -/
def verify_signature (_token : String) (_price : Price) (_timestamp : Nat)
    (_signer : ActorId) (_signature : List Nat) : Bool :=
  true

/-- `utils::price_key`: a known market id resolves to its `index_token`,
anything else is used as the oracle key directly. -/
def price_key (st : DexState) (id_or_token : String) : String :=
  match st.markets id_or_token with
  | some m => m.index_token
  | none => id_or_token

def get_price (st : DexState) (token : String) : Res Price :=
  match st.oracle.prices token with
  | some p => .ok p
  | none => .err .PriceNotAvailable

/-- `OracleModule::mid`: `(min + max) / 2` with Rust's wrapping `u128` addition. -/
def oracle_mid (st : DexState) (token : String) : Res Nat :=
  match get_price st token with
  | .ok p => .ok (wAdd p.min p.max / 2)
  | .err e => .err e

def oracle_spread (st : DexState) (token : String) : Res Nat :=
  match get_price st token with
  | .ok p => .ok (satSub p.max p.min)
  | .err e => .err e

def last_update (st : DexState) (token : String) : Option Nat :=
  st.oracle.timestamps token

/-- The three oracle-table inserts performed for one `set_prices` entry. -/
def oracle_insert (st : DexState) (sp : SignedPrice) : DexState :=
  { st with oracle :=
    { st.oracle with
      prices := upd st.oracle.prices sp.token (some sp.price)
      timestamps := upd st.oracle.timestamps sp.token (some sp.timestamp)
      last_signer := upd st.oracle.last_signer sp.token (some sp.signer) } }

/-- One iteration of the `set_prices` loop: freshness check, signature check,
then the three table inserts. -/
def set_prices_loop (st : DexState) (now : Nat) : List SignedPrice → Res Unit × DexState
  | [] => (.ok (), st)
  | sp :: rest =>
    if satSub now sp.timestamp > st.oracle.config.max_age_seconds then
      (.err .PriceStale, st)
    else if !verify_signature sp.token sp.price sp.timestamp sp.signer sp.signature then
      (.err .InvalidOracleSignature, st)
    else
      set_prices_loop (oracle_insert st sp) now rest

/-- `OracleModule::set_prices`. -/
def set_prices (st : DexState) (batch : List SignedPrice) (now : Nat) : Res Unit × DexState :=
  set_prices_loop st now batch

/-- `OracleModule::set_config` (admin only). -/
def oracle_set_config (st : DexState) (caller : ActorId) (cfg : OracleConfig) :
    Res Unit × DexState :=
  if !st.is_admin caller then (.err .Unauthorized, st)
  else (.ok (), { st with oracle := { st.oracle with config := cfg } })

/-! ## Fee-accrual module (`modules/risk.rs`) -/

structure SettledFees where
  funding_fee : Int
  borrowing_fee : Nat
  total_fee_usd : Int
  deriving DecidableEq, Repr

def SettledFees.default : SettledFees := { funding_fee := 0, borrowing_fee := 0, total_fee_usd := 0 }

/-- The `for _ in 1..exp` chain of `funding_rate_micro`:
`base := base.saturating_mul(b) / 10_000`, run `exp - 1` times. -/
def powChainI (base b : Int) : Nat → Int
  | 0 => base
  | n + 1 => powChainI (divI (satMulI base b) 10000) b n

/-- The annualized signed funding rate computed by `funding_rate_micro`
before the per-hour cap is applied. -/
def funding_rate_annual_bps (pool : PoolAmounts) (cfg : MarketConfig) (dt : Nat) : Int :=
  let imbalance : Int := u128AsI128 pool.long_oi_usd - u128AsI128 pool.short_oi_usd
  let total_oi := satAdd pool.long_oi_usd pool.short_oi_usd
  let ratio_bps : Int := divI (satMulI imbalance 10000) (u128AsI128 total_oi)
  let exp := max cfg.funding_exponent 1
  let base : Int := (ratio_bps.natAbs : Int)
  let powered := powChainI base (ratio_bps.natAbs : Int) (exp - 1)
  let rate_bps : Int := divI (satMulI powered (u128AsI128 cfg.funding_factor)) 10000
  let rate_bps : Int := if imbalance > 0 then rate_bps else if imbalance < 0 then -rate_bps else 0
  let seconds_per_year : Int := 365 * 24 * 60 * 60
  divI (satMulI rate_bps (dt : Int)) seconds_per_year

/-- `RiskModule::funding_rate_micro` (pure part, over the pool and config). -/
def funding_rate_micro (pool : PoolAmounts) (cfg : MarketConfig) (dt : Nat) : Res Int :=
  let total_oi := satAdd pool.long_oi_usd pool.short_oi_usd
  if total_oi = 0 then .ok 0
  else
    let rate_annual_bps := funding_rate_annual_bps pool cfg dt
    let cap_bps := divI (satMulI 10 (dt : Int)) 3600
    let rate_capped_bps := min (max rate_annual_bps (-cap_bps)) cap_bps
    .ok (satMulI rate_capped_bps 100)

/-- `RiskModule::accrue_pool`, pure part: the update applied to the pool when
`dt > 0` and the funding rate computed without error. -/
def accrue_pool_pure (pool : PoolAmounts) (cfg : MarketConfig) (now : Nat) : PoolAmounts :=
  let dt := satSub now pool.last_funding_update
  if dt = 0 then pool
  else
    match funding_rate_micro pool cfg dt with
    | .err _ => pool
    | .ok r =>
      { pool with
        accumulated_funding_long_per_usd := satAddI pool.accumulated_funding_long_per_usd r
        accumulated_funding_short_per_usd := satSubI pool.accumulated_funding_short_per_usd r
        last_funding_update := now }

/-- `RiskModule::accrue_pool` (state level). -/
def accrue_pool (st : DexState) (market : String) (now : Nat) : Res Unit × DexState :=
  match st.market_configs market with
  | none => (.err .MarketNotFound, st)
  | some cfg =>
    match st.pool_amounts market with
    | none => (.err .MarketNotFound, st)
    | some pool =>
      (.ok (), { st with pool_amounts := upd st.pool_amounts market (some (accrue_pool_pure pool cfg now)) })

/-- Modelled from the spec: `position_borrowing_fee` in `risk.rs` reads
`pool.long_liquidity_usd` and `pool.short_liquidity_usd`, fields that are
absent from `PoolAmounts` in `types.rs`.  Following section 4.3 of the spec
(`utilization = size_usd / side_liquidity`), the side liquidity is taken to
be the pool's `liquidity_usd` for either side. -/
def side_liquidity (pool : PoolAmounts) (_is_long : Bool) : Nat := pool.liquidity_usd

/-- The `for _ in 1..exponent` chain of `position_borrowing_fee`. -/
def powChainN (acc b : Nat) : Nat → Nat
  | 0 => acc
  | n + 1 => powChainN (satMul acc b / 10000) b n

/-- `RiskModule::position_borrowing_fee`. -/
def position_borrowing_fee (pos : Position) (pool : PoolAmounts) (cfg : MarketConfig)
    (dt : Nat) : Res Nat :=
  let liquidity := side_liquidity pool pos.is_long
  if liquidity = 0 then .ok 0
  else
    let util_bps := satMul pos.size_usd 10000 / liquidity
    let exponent := max cfg.borrowing_exponent 1
    let util_exp := powChainN util_bps util_bps (exponent - 1)
    let rate_bps := min (satMul cfg.borrowing_factor util_exp / 10000) 10000
    let seconds_per_year : Nat := 365 * 24 * 60 * 60
    .ok (satMul (satMul rate_bps pos.size_usd) dt / (seconds_per_year * 10000))

/-- Steps 2 and 3 of `settle_position_fees`: the borrowing fee and the
application of the net fee to the position's collateral. -/
def settle_borrow_and_apply (pos : Position) (pool : PoolAmounts) (cfg : MarketConfig)
    (now : Nat) (fees : SettledFees) : Res SettledFees × Position × PoolAmounts :=
  let dt := satSub now pos.last_fee_update
  let (fees, pool) :=
    if dt > 0 ∧ pos.size_usd > 0 then
      match position_borrowing_fee pos pool cfg dt with
      | .err _ => (fees, pool)
      | .ok bf =>
        let pool :=
          if pos.is_long then
            { pool with claimable_fee_usd_long := satAdd pool.claimable_fee_usd_long bf }
          else
            { pool with claimable_fee_usd_short := satAdd pool.claimable_fee_usd_short bf }
        let pool := { pool with total_borrowing_fees_usd := satAdd pool.total_borrowing_fees_usd bf }
        ({ fees with borrowing_fee := bf }, pool)
    else (fees, pool)
  let pos := { pos with last_fee_update := now }
  let fees := { fees with total_fee_usd := satAddI fees.funding_fee (fees.borrowing_fee : Int) }
  if fees.total_fee_usd > 0 then
    let fee := i128AsU128 fees.total_fee_usd
    if fee > pos.collateral_usd then
      (.err .InsufficientCollateral, { pos with collateral_usd := 0 }, pool)
    else
      (.ok fees, { pos with collateral_usd := satSub pos.collateral_usd fee }, pool)
  else if fees.total_fee_usd < 0 then
    let credit := (-fees.total_fee_usd).toNat
    (.ok fees, { pos with collateral_usd := satAdd pos.collateral_usd credit }, pool)
  else
    (.ok fees, pos, pool)

/-- `RiskModule::settle_position_fees`, pure part: returns the result, the
updated position (the `&mut Position` argument) and the updated pool.  The
pool mutations performed before an error or early return are kept in the
returned pool, exactly as the source writes them through `get_mut`. -/
def settle_position_fees_pure (pos : Position) (pool : PoolAmounts) (cfg : MarketConfig)
    (now : Nat) : Res SettledFees × Position × PoolAmounts :=
  let current_funding :=
    if pos.is_long then pool.accumulated_funding_long_per_usd
    else pool.accumulated_funding_short_per_usd
  let funding_delta_micro := current_funding - pos.funding_fee_per_usd
  let funding_fee := divI (satMulI (u128AsI128 pos.size_usd) funding_delta_micro) (USD_SCALE : Int)
  let pos := { pos with funding_fee_per_usd := current_funding }
  -- claimable-bucket transfer for the funding leg
  if funding_fee > 0 then
    let payment := i128AsU128 funding_fee
    let pool :=
      if pos.is_long then
        { pool with claimable_fee_usd_short := satAdd pool.claimable_fee_usd_short payment }
      else
        { pool with claimable_fee_usd_long := satAdd pool.claimable_fee_usd_long payment }
    settle_borrow_and_apply pos pool cfg now { SettledFees.default with funding_fee := funding_fee }
  else if funding_fee < 0 then
    let credit := (-funding_fee).toNat
    if pos.is_long then
      if pool.claimable_fee_usd_long < credit then
        let available := pool.claimable_fee_usd_long
        let pool := { pool with claimable_fee_usd_long := 0 }
        let pos := { pos with collateral_usd := satAdd pos.collateral_usd available }
        let fees : SettledFees :=
          { funding_fee := -(available : Int), borrowing_fee := 0,
            total_fee_usd := satAddI (-(available : Int)) 0 }
        (.ok fees, pos, pool)
      else
        let pool := { pool with claimable_fee_usd_long := satSub pool.claimable_fee_usd_long credit }
        settle_borrow_and_apply pos pool cfg now { SettledFees.default with funding_fee := funding_fee }
    else
      if pool.claimable_fee_usd_short < credit then
        let available := pool.claimable_fee_usd_short
        let pool := { pool with claimable_fee_usd_short := 0 }
        let pos := { pos with collateral_usd := satAdd pos.collateral_usd available }
        let fees : SettledFees :=
          { funding_fee := -(available : Int), borrowing_fee := 0,
            total_fee_usd := satAddI (-(available : Int)) 0 }
        (.ok fees, pos, pool)
      else
        let pool := { pool with claimable_fee_usd_short := satSub pool.claimable_fee_usd_short credit }
        settle_borrow_and_apply pos pool cfg now { SettledFees.default with funding_fee := funding_fee }
  else
    settle_borrow_and_apply pos pool cfg now { SettledFees.default with funding_fee := funding_fee }

/-- `RiskModule::settle_position_fees` at state level: looks up the config and
pool, threads the pool mutations back into the state. -/
def settle_position_fees (st : DexState) (pos : Position) (market : String) (now : Nat) :
    Res SettledFees × Position × DexState :=
  match st.market_configs market with
  | none => (.err .MarketNotFound, pos, st)
  | some cfg =>
    match st.pool_amounts market with
    | none => (.err .MarketNotFound, pos, st)
    | some pool =>
      let (r, pos', pool') := settle_position_fees_pure pos pool cfg now
      (r, pos', { st with pool_amounts := upd st.pool_amounts market (some pool') })

/-- `RiskModule::is_liquidatable`. -/
def is_liquidatable (pos : Position) (current_price_usd : Nat) (liq_bps : Nat) : Bool :=
  if pos.size_usd = 0 ∨ pos.entry_price_usd = 0 then false
  else
    let tokens_usdx := satMul pos.size_usd USD_SCALE / pos.entry_price_usd
    if tokens_usdx = 0 then false
    else
      let price_delta : Int :=
        if pos.is_long then u128AsI128 current_price_usd - u128AsI128 pos.entry_price_usd
        else u128AsI128 pos.entry_price_usd - u128AsI128 current_price_usd
      let pnl := divI (satMulI price_delta (u128AsI128 tokens_usdx)) (USD_SCALE : Int)
      let current_value := satAddI (u128AsI128 pos.collateral_usd) pnl
      let threshold := divI (satMulI (u128AsI128 pos.collateral_usd) (liq_bps : Int)) 10000
      current_value ≤ threshold

/-! ## Position manager (`modules/position.rs`) -/

/-- `PositionModule::calculate_pnl`. -/
def calculate_pnl (pos : Position) (current_price_usd : Nat) : Int :=
  if pos.size_usd = 0 ∨ pos.entry_price_usd = 0 then 0
  else if pos.is_long then
    let price_diff := u128AsI128 current_price_usd - u128AsI128 pos.entry_price_usd
    divI (satMulI (u128AsI128 pos.size_usd) price_diff) (u128AsI128 pos.entry_price_usd)
  else
    let price_diff := u128AsI128 pos.entry_price_usd - u128AsI128 current_price_usd
    divI (satMulI (u128AsI128 pos.size_usd) price_diff) (u128AsI128 pos.entry_price_usd)

/-- `PositionModule::calculate_liquidation_price`. -/
def calculate_liquidation_price (pos : Position) (liq_bps : Nat) : Nat :=
  if pos.size_usd = 0 ∨ pos.entry_price_usd = 0 then 0
  else
    let threshold_usd := satMul pos.collateral_usd liq_bps / 10000
    let loss_allowed := satSub pos.collateral_usd threshold_usd
    let loss_ratio := satMul loss_allowed USD_SCALE / pos.size_usd
    if pos.is_long then
      let ratio := satSub USD_SCALE loss_ratio
      satMul pos.entry_price_usd ratio / USD_SCALE
    else
      let ratio := satAdd USD_SCALE loss_ratio
      satMul pos.entry_price_usd ratio / USD_SCALE

/-- The fresh position built by `increase_position` when no position exists
under the key. -/
def newPosition (key : PositionKey) (account : ActorId) (market collateral_token : String)
    (is_long : Bool) (execution_price_usd now height : Nat) : Position :=
  { key := key, account := account, market := market, collateral_token := collateral_token,
    is_long := is_long, size_usd := 0, collateral_usd := 0,
    entry_price_usd := execution_price_usd, liquidation_price_usd := 0,
    funding_fee_per_usd := 0, borrowing_factor := 0, increased_at_block := height,
    decreased_at_block := 0, last_fee_update := now }

/-- The entry-price recomputation and staged size/collateral/block updates of
`increase_position` (the mutations applied to the local `pos` value before
the pool checks). -/
def staged_increase_pos (pos : Position) (size_delta_usd collateral_delta_usd
    execution_price_usd height : Nat) : Position :=
  let pos :=
    if pos.size_usd > 0 then
      let old_notional := pos.size_usd
      let new_notional := size_delta_usd
      let total_size := satAdd old_notional new_notional
      let ep := satAdd (satMul old_notional pos.entry_price_usd)
          (satMul new_notional execution_price_usd) / total_size
      { pos with entry_price_usd := ep }
    else
      { pos with entry_price_usd := execution_price_usd }
  -- the `total_size == 0` guard of the source is unreachable here because
  -- it is only evaluated when `pos.size_usd > 0`
  { pos with
    size_usd := satAdd pos.size_usd size_delta_usd
    collateral_usd := satAdd pos.collateral_usd collateral_delta_usd
    increased_at_block := height }

/-- The liquidation-price caching step of `increase_position`, applied only
when the staged position has positive collateral and size. -/
def staged_with_liq_price (pos : Position) (liq_bps : Nat) : Position :=
  if pos.collateral_usd > 0 ∧ pos.size_usd > 0 then
    { pos with liquidation_price_usd := calculate_liquidation_price pos liq_bps }
  else pos

/-- The open-interest update of `increase_position` on the trader's side. -/
def pool_with_new_oi (pool : PoolAmounts) (is_long : Bool) (new_oi : Nat) : PoolAmounts :=
  if is_long then { pool with long_oi_usd := new_oi } else { pool with short_oi_usd := new_oi }

/-- The state with one pool entry replaced. -/
def set_pool (st : DexState) (market : String) (pool : PoolAmounts) : DexState :=
  { st with pool_amounts := upd st.pool_amounts market (some pool) }

/-- The state with one account balance entry replaced. -/
def set_balance (st : DexState) (account : ActorId) (bal : Nat) : DexState :=
  { st with balances := fun a => if a = account then some bal else st.balances a }

/-- The state with the position inserted and, for a new position, the key
appended to the account's position list. -/
def insert_position (st : DexState) (key : PositionKey) (pos : Position)
    (is_new_position : Bool) (account : ActorId) : DexState :=
  let ap := updL st.account_positions account (st.account_positions account ++ [key])
  let st := if is_new_position then { st with account_positions := ap } else st
  { st with positions := updP st.positions key (some pos) }

/-- The tail of `increase_position` after the fee settlement: entry-price
recomputation, the staged size/collateral updates, the open-interest checks
(which mutate the pool before later checks can still fail), the balance
debit, and the leverage check.  `st` is the state after the settlement. -/
def increase_position_commit (st : DexState) (key : PositionKey) (pos : Position)
    (is_new_position : Bool) (account : ActorId) (market : String) (is_long : Bool)
    (size_delta_usd collateral_delta_usd execution_price_usd height : Nat)
    (cfg : MarketConfig) (total_cost : Nat) : Res PositionKey × DexState :=
  let pos := staged_increase_pos pos size_delta_usd collateral_delta_usd
    execution_price_usd height
  -- `pool_amounts.entry(market).or_insert_with(default)`
  let pool := (st.pool_amounts market).getD PoolAmounts.default
  let st := set_pool st market pool
  let max_allowed_oi_from_liquidity := satMul pool.liquidity_usd cfg.reserve_factor_bps / 10000
  let new_oi := if is_long then satAdd pool.long_oi_usd size_delta_usd
                else satAdd pool.short_oi_usd size_delta_usd
  if new_oi > (if is_long then cfg.max_long_oi else cfg.max_short_oi) then
    (.err .MaxOpenInterestExceeded, st)
  else if new_oi > max_allowed_oi_from_liquidity then
    (.err .InsufficientLiquidity, st)
  else
    let st := set_pool st market (pool_with_new_oi pool is_long new_oi)
    -- `balances.entry(account).or_insert(0)` followed by the second balance check
    let bal := (st.balances account).getD 0
    let st := set_balance st account bal
    if bal < total_cost then (.err .InsufficientBalance, st)
    else
      let st := set_balance st account (satSub bal total_cost)
      let pos := staged_with_liq_price pos cfg.liquidation_threshold_bps
      if pos.collateral_usd > 0 ∧ pos.size_usd > 0 ∧
          satMul pos.size_usd 10000 / pos.collateral_usd > satMul cfg.max_leverage 10000 then
        (.err .MaxLeverageExceeded, st)
      else
        (.ok key, insert_position st key pos is_new_position account)

/-- `PositionModule::increase_position`. -/
def increase_position (st : DexState) (account : ActorId) (market collateral_token : String)
    (is_long : Bool) (size_delta_usd collateral_delta_usd execution_price_usd : Nat)
    (now height : Nat) : Res PositionKey × DexState :=
  let key : PositionKey :=
    { account := account, market := market, collateral_token := collateral_token,
      is_long := is_long }
  match st.market_configs market with
  | none => (.err .MarketNotFound, st)
  | some cfg =>
    let balance := (st.balances account).getD 0
    let total_cost := collateral_delta_usd
    if balance < total_cost then (.err .InsufficientBalance, st)
    else
      match st.positions key with
      | some existing =>
        let (r, pos, st') := settle_position_fees st existing market now
        (match r with
         | .err e => (.err e, st')
         | .ok _ =>
           increase_position_commit st' key pos false account market is_long
             size_delta_usd collateral_delta_usd execution_price_usd height cfg total_cost)
      | none =>
        let pos := newPosition key account market collateral_token is_long
          execution_price_usd now height
        increase_position_commit st key pos true account market is_long
          size_delta_usd collateral_delta_usd execution_price_usd height cfg total_cost

/-- `Vec::swap_remove` on the embedded list (replace index `i` with the last
element and pop). -/
def swapRemove {a : Type} (l : List a) (i : Nat) : List a :=
  match l.getLast? with
  | none => l
  | some last =>
    let l' := l.dropLast
    if i < l'.length then l'.set i last else l'

/-- Removal of `key` from an `account_positions` entry as performed by
`decrease_position` and `liquidate_position`. -/
def removeAccountPosition (l : List PositionKey) (key : PositionKey) : List PositionKey :=
  match l.indexOf? key with
  | some i => swapRemove l i
  | none => l

/-- The open-interest reduction applied on the trader's side by
`decrease_position` and `liquidate_position`. -/
def pool_sub_oi (pool : PoolAmounts) (is_long : Bool) (amount : Nat) : PoolAmounts :=
  if is_long then { pool with long_oi_usd := satSub pool.long_oi_usd amount }
  else { pool with short_oi_usd := satSub pool.short_oi_usd amount }

/-- The pool-liquidity adjustment by the negative of the trader's realized
PnL (profit drains the pool, loss replenishes it). -/
def pool_apply_pnl (pool : PoolAmounts) (pnl : Int) : PoolAmounts :=
  if pnl > 0 then { pool with liquidity_usd := satSub pool.liquidity_usd (i128AsU128 pnl) }
  else if pnl < 0 then { pool with liquidity_usd := satAdd pool.liquidity_usd pnl.natAbs }
  else pool

/-- `PositionModule::decrease_position`. -/
def decrease_position (st : DexState) (account : ActorId) (market collateral_token : String)
    (is_long : Bool) (size_delta_usd collateral_delta_usd execution_price_usd : Nat)
    (now height : Nat) : Res PositionKey × DexState :=
  let key : PositionKey :=
    { account := account, market := market, collateral_token := collateral_token,
      is_long := is_long }
  match st.market_configs market with
  | none => (.err .MarketNotFound, st)
  | some cfg =>
    match st.positions key with
    | none => (.err .PositionNotFound, st)
    | some pos0 =>
      let (r, pos, st) := settle_position_fees st pos0 market now
      match r with
      | .err e => (.err e, st)
      | .ok _ =>
        if size_delta_usd > pos.size_usd then (.err .InsufficientPositionSize, st)
        else if collateral_delta_usd > pos.collateral_usd then (.err .InsufficientCollateral, st)
        else
          let total_pnl := calculate_pnl pos execution_price_usd
          let pnl_partial :=
            if pos.size_usd = 0 then 0
            else divI (satMulI total_pnl (u128AsI128 size_delta_usd)) (u128AsI128 pos.size_usd)
          let pos := { pos with
            size_usd := satSub pos.size_usd size_delta_usd
            collateral_usd := satSub pos.collateral_usd collateral_delta_usd
            decreased_at_block := height }
          let payout_usd := collateral_delta_usd
          let payout_usd :=
            if pnl_partial ≥ 0 then satAdd payout_usd (i128AsU128 pnl_partial)
            else
              let loss := pnl_partial.natAbs
              satSub payout_usd (min payout_usd loss)
          let pool := (st.pool_amounts market).getD PoolAmounts.default
          let pool := pool_apply_pnl (pool_sub_oi pool is_long size_delta_usd) pnl_partial
          let st := { st with pool_amounts := upd st.pool_amounts market (some pool) }
          let bal := (st.balances account).getD 0
          let st := { st with balances := fun a =>
            if a = account then some (satAdd bal payout_usd) else st.balances a }
          if pos.size_usd > 0 then
            let lp := calculate_liquidation_price pos cfg.liquidation_threshold_bps
            let pos := { pos with liquidation_price_usd := lp }
            (.ok key, { st with positions := updP st.positions key (some pos) })
          else
            let st := { st with positions := updP st.positions key none }
            let ap := updL st.account_positions account
              (removeAccountPosition (st.account_positions account) key)
            let st := { st with account_positions := ap }
            (.ok key, st)

/-- `PositionModule::liquidate_position`. -/
def liquidate_position (st : DexState) (liquidator : ActorId) (position_key : PositionKey)
    (execution_price_usd : Nat) (liquidation_fee_bps : Nat) (now : Nat) :
    Res (PositionKey × Nat) × DexState :=
  match st.positions position_key with
  | none => (.err .PositionNotFound, st)
  | some pos0 =>
    let market := pos0.market
    let owner := pos0.account
    let (r, pos, st) := settle_position_fees st pos0 market now
    match r with
    | .err e => (.err e, st)
    | .ok _ =>
      let total_pnl := calculate_pnl pos execution_price_usd
      let liquidation_fee := satMul pos.collateral_usd liquidation_fee_bps / 10000
      let remaining_collateral := satSub pos.collateral_usd liquidation_fee
      let payout_to_owner :=
        if total_pnl ≥ 0 then satAdd remaining_collateral (i128AsU128 total_pnl)
        else
          let loss := total_pnl.natAbs
          satSub remaining_collateral (min remaining_collateral loss)
      let size_usd := pos.size_usd
      let is_long := pos.is_long
      let pool := (st.pool_amounts market).getD PoolAmounts.default
      let pool := pool_apply_pnl (pool_sub_oi pool is_long size_usd) total_pnl
      let st := { st with pool_amounts := upd st.pool_amounts market (some pool) }
      let lbal := (st.balances liquidator).getD 0
      let st := { st with balances := fun a =>
        if a = liquidator then some (satAdd lbal liquidation_fee) else st.balances a }
      let obal := (st.balances owner).getD 0
      let st := { st with balances := fun a =>
        if a = owner then some (satAdd obal payout_to_owner) else st.balances a }
      let st := { st with positions := updP st.positions position_key none }
      let ap := updL st.account_positions owner
        (removeAccountPosition (st.account_positions owner) position_key)
      let st := { st with account_positions := ap }
      (.ok (position_key, liquidation_fee), st)

/-! ## Liquidity pool (`modules/market.rs`) and wallet (`services/wallet_service.rs`) -/

/-- `mt.balances.iter_mut().find(..)` followed by a saturating credit, with a
push of a fresh entry when the LP has no entry yet (`add_liquidity`). -/
def mtCredit (balances : List (ActorId × Nat)) (lp : ActorId) (amount : Nat) :
    List (ActorId × Nat) :=
  match balances with
  | [] => [(lp, amount)]
  | (a, b) :: rest =>
    if a = lp then (a, satAdd b amount) :: rest
    else (a, b) :: mtCredit rest lp amount

/-- The first LP-share balance entry for `lp`, as found by `iter_mut().find`. -/
def mtFind (balances : List (ActorId × Nat)) (lp : ActorId) : Option Nat :=
  match balances with
  | [] => none
  | (a, b) :: rest => if a = lp then some b else mtFind rest lp

/-- Saturating burn applied to the first LP-share balance entry for `lp`. -/
def mtBurn (balances : List (ActorId × Nat)) (lp : ActorId) (amount : Nat) :
    List (ActorId × Nat) :=
  match balances with
  | [] => []
  | (a, b) :: rest =>
    if a = lp then (a, satSub b amount) :: rest
    else (a, b) :: mtBurn rest lp amount

/-- `MarketModule::create_market` (admin only). -/
def create_market (st : DexState) (caller : ActorId) (market_id : String)
    (index_token long_token short_token : String) (market_token : ActorId)
    (config : MarketConfig) : Res Unit × DexState :=
  if !st.is_admin caller then (.err .Unauthorized, st)
  else if (st.markets market_id).isSome then (.err .MarketAlreadyExists, st)
  else
    let market : Market := { market_token := market_token, index_token := index_token,
                             long_token := long_token, short_token := short_token }
    let st := { st with markets := upd st.markets market_id (some market) }
    let st := { st with market_configs := upd st.market_configs market_id (some config) }
    let st := { st with pool_amounts := upd st.pool_amounts market_id (some PoolAmounts.default) }
    let st := { st with market_tokens := upd st.market_tokens market_id (some MarketTokenInfo.default) }
    (.ok (), st)

/-- `MarketModule::set_market_config` (admin only). -/
def set_market_config (st : DexState) (caller : ActorId) (market_id : String)
    (config : MarketConfig) : Res Unit × DexState :=
  if !st.is_admin caller then (.err .Unauthorized, st)
  else if (st.markets market_id).isNone then (.err .MarketNotFound, st)
  else (.ok (), { st with market_configs := upd st.market_configs market_id (some config) })

/-- The commit phase of `add_liquidity`: slippage check, then the mint applied
to the re-inserted pool and token-info entries. -/
def add_liquidity_commit (st : DexState) (lp : ActorId) (market_id : String)
    (pool : PoolAmounts) (mt : MarketTokenInfo) (long_usd short_usd mint_amount min_mint : Nat) :
    Res Nat × DexState :=
  if mint_amount < min_mint then (.err .SlippageExceeded, st)
  else
    let pool := { pool with liquidity_usd := satAdd (satAdd pool.liquidity_usd long_usd) short_usd }
    let mt := { mt with total_supply := satAdd mt.total_supply mint_amount }
    let mt := { mt with balances := mtCredit mt.balances lp mint_amount }
    let st := { st with pool_amounts := upd st.pool_amounts market_id (some pool) }
    let st := { st with market_tokens := upd st.market_tokens market_id (some mt) }
    (.ok mint_amount, st)

/-- `MarketModule::add_liquidity`.  The source unwraps the pool and token-info
entries after checking only that the market exists; a missing entry panics in
Rust before any mutation and is embedded as `MarketNotFound` with the state
unchanged. -/
def add_liquidity (st : DexState) (lp : ActorId) (market_id : String)
    (long_token_amount short_token_amount min_mint : Nat) : Res Nat × DexState :=
  match st.markets market_id with
  | none => (.err .MarketNotFound, st)
  | some market =>
    match oracle_mid st market.long_token with
    | .err e => (.err e, st)
    | .ok long_price =>
      match oracle_mid st market.short_token with
      | .err e => (.err e, st)
      | .ok short_price =>
        match st.pool_amounts market_id with
        | none => (.err .MarketNotFound, st)
        | some pool =>
          match st.market_tokens market_id with
          | none => (.err .MarketNotFound, st)
          | some mt =>
            let pool_liq_snapshot := pool.liquidity_usd
            let total_supply_snapshot := mt.total_supply
            let long_usd := satMul long_token_amount long_price / USD_SCALE
            let short_usd := satMul short_token_amount short_price / USD_SCALE
            let added_value := satAdd long_usd short_usd
            if total_supply_snapshot = 0 then
              add_liquidity_commit st lp market_id pool mt long_usd short_usd added_value min_mint
            else if pool_liq_snapshot = 0 then (.err .InsufficientLiquidity, st)
            else
              let mint_amount := satMul total_supply_snapshot added_value / pool_liq_snapshot
              add_liquidity_commit st lp market_id pool mt long_usd short_usd mint_amount min_mint

/-- `MarketModule::remove_liquidity`.  Note the commit phase of the source
first removes the pool and token-info entries from their tables and only then
checks the caller's LP-share balance: the `InsufficientMarketTokens` error
paths return with both entries already removed. -/
def remove_liquidity (st : DexState) (lp : ActorId) (market_id : String)
    (market_token_amount min_long_out min_short_out : Nat) : Res (Nat × Nat) × DexState :=
  match st.markets market_id with
  | none => (.err .MarketNotFound, st)
  | some market =>
    match oracle_mid st market.long_token with
    | .err e => (.err e, st)
    | .ok long_price =>
      match oracle_mid st market.short_token with
      | .err e => (.err e, st)
      | .ok short_price =>
        match st.pool_amounts market_id with
        | none => (.err .MarketNotFound, st)
        | some pool =>
          match st.market_tokens market_id with
          | none => (.err .MarketNotFound, st)
          | some mt =>
            if mt.total_supply = 0 then (.err .InsufficientLiquidity, st)
            else
              let pool_liq := pool.liquidity_usd
              let fee_long_total := pool.claimable_fee_usd_long
              let fee_short_total := pool.claimable_fee_usd_short
              let total_supply_snapshot := mt.total_supply
              let liq_usd := satMul pool_liq market_token_amount / total_supply_snapshot
              let price_sum := satAdd long_price short_price
              if price_sum = 0 then (.err .InvalidPrice, st)
              else
                let long_usd_base := satMul liq_usd long_price / price_sum
                let short_usd_base := satSub liq_usd long_usd_base
                let fee_long_usd := satMul fee_long_total market_token_amount / total_supply_snapshot
                let fee_short_usd := satMul fee_short_total market_token_amount / total_supply_snapshot
                let total_long_usd := satAdd long_usd_base fee_long_usd
                let total_short_usd := satAdd short_usd_base fee_short_usd
                let long_out_tokens := satMul total_long_usd USD_SCALE / long_price
                let short_out_tokens := satMul total_short_usd USD_SCALE / short_price
                if long_out_tokens < min_long_out ∨ short_out_tokens < min_short_out then
                  (.err .SlippageExceeded, st)
                else
                  -- commit phase: both entries are removed first
                  let st := { st with pool_amounts := upd st.pool_amounts market_id none }
                  let st := { st with market_tokens := upd st.market_tokens market_id none }
                  match mtFind mt.balances lp with
                  | none => (.err .InsufficientMarketTokens, st)
                  | some bal =>
                    if bal < market_token_amount then (.err .InsufficientMarketTokens, st)
                    else
                      let mt := { mt with balances := mtBurn mt.balances lp market_token_amount }
                      let pool := { pool with liquidity_usd := satSub pool.liquidity_usd liq_usd }
                      let pool := { pool with claimable_fee_usd_long := satSub pool.claimable_fee_usd_long fee_long_usd }
                      let pool := { pool with claimable_fee_usd_short := satSub pool.claimable_fee_usd_short fee_short_usd }
                      let mt := { mt with total_supply := satSub mt.total_supply market_token_amount }
                      let st := { st with pool_amounts := upd st.pool_amounts market_id (some pool) }
                      let st := { st with market_tokens := upd st.market_tokens market_id (some mt) }
                      (.ok (long_out_tokens, short_out_tokens), st)

/-- `WalletService::deposit`. -/
def wallet_deposit (st : DexState) (caller : ActorId) (amount : Nat) : Res Nat × DexState :=
  if amount = 0 then (.err .InvalidParameter, st)
  else
    let bal := (st.balances caller).getD 0
    let bal := satAdd bal amount
    (.ok bal, { st with balances := fun a => if a = caller then some bal else st.balances a })

/-- `WalletService::withdraw`. -/
def wallet_withdraw (st : DexState) (caller : ActorId) (amount : Nat) : Res Nat × DexState :=
  if amount = 0 then (.err .InvalidParameter, st)
  else
    match st.balances caller with
    | none => (.err .InsufficientBalance, st)
    | some bal =>
      if bal < amount then (.err .InsufficientBalance, st)
      else
        let bal := satSub bal amount
        (.ok bal, { st with balances := fun a => if a = caller then some bal else st.balances a })

/-! ## Pricing engine (`modules/pricing.rs`) -/

/-- Rust wrapping `u128` multiplication. -/
def wMul (a b : Nat) : Nat := (a * b) % 2 ^ 128

/-- Rust wrapping `i128` multiplication. -/
def wMulI (a b : Int) : Int := (a * b + 2 ^ 127) % 2 ^ 128 - 2 ^ 127

/-- Rust `u128::checked_mul`. -/
def checkedMul (a b : Nat) : Option Nat := if a * b > U128_MAX then none else some (a * b)

/-- Rust `i128::checked_mul`. -/
def checkedMulI (a b : Int) : Option Int :=
  if a * b < I128_MIN ∨ a * b > I128_MAX then none else some (a * b)

/-- `PricingModule::safe_power`: the `checked_mul` chain. -/
def safe_power_loop (result base : Nat) : Nat → Res Nat
  | 0 => .ok result
  | n + 1 =>
    match checkedMul result base with
    | none => .err .MathOverflow
    | some r => safe_power_loop r base n

/-- `PricingModule::safe_power`. -/
def safe_power (base : Nat) (exp : Nat) : Res Nat :=
  if exp = 0 then .ok 1
  else if exp = 1 then .ok base
  else safe_power_loop base base (exp - 1)

/-- `PricingModule::calculate_price_impact_usd`. -/
def calculate_price_impact_usd (pool : PoolAmounts) (cfg : MarketConfig) (side : OrderSide)
    (size_usd : Nat) (is_increase : Bool) : Res Int :=
  let long_oi := u128AsI128 pool.long_oi_usd
  let short_oi := u128AsI128 pool.short_oi_usd
  if long_oi = 0 ∧ short_oi = 0 then .ok 0
  else
    let total_oi_before := long_oi + short_oi
    if total_oi_before ≤ 0 then .ok 0
    else
      let d_before_abs := (long_oi - short_oi).natAbs
      let d_before_bps := wMul d_before_abs 10000 / i128AsU128 total_oi_before
      let delta := u128AsI128 size_usd
      let step : Res (Int × Int) :=
        match side, is_increase with
        | OrderSide.Long, true => .ok (long_oi + delta, short_oi)
        | OrderSide.Long, false =>
          if delta > long_oi then .err .InsufficientOpenInterest
          else .ok (long_oi - delta, short_oi)
        | OrderSide.Short, true => .ok (long_oi, short_oi + delta)
        | OrderSide.Short, false =>
          if delta > short_oi then .err .InsufficientOpenInterest
          else .ok (long_oi, short_oi - delta)
      match step with
      | .err e => .err e
      | .ok (new_long_oi, new_short_oi) =>
        let total_oi_after := new_long_oi + new_short_oi
        if total_oi_after ≤ 0 then .ok 0
        else
          let d_after_abs := (new_long_oi - new_short_oi).natAbs
          let d_after_bps := wMul d_after_abs 10000 / i128AsU128 total_oi_after
          let helps_balance := d_after_bps < d_before_bps
          let impact_factor := if helps_balance then cfg.pi_factor_positive else cfg.pi_factor_negative
          let exp := min (max cfg.pi_exponent 1) 8
          match safe_power d_before_bps exp with
          | .err e => .err e
          | .ok d_before_powered =>
            match safe_power d_after_bps exp with
            | .err e => .err e
            | .ok d_after_powered =>
              if d_before_powered > I128_MAX.toNat ∨ d_after_powered > I128_MAX.toNat then
                .err .MathOverflow
              else
                let diff : Int := (d_after_powered : Int) - (d_before_powered : Int)
                match checkedMulI diff (u128AsI128 impact_factor) with
                | none => .err .MathOverflow
                | some m =>
                  let impact_relative := divI m 10000
                  let price_impact_usd_raw := divI (wMulI impact_relative (u128AsI128 size_usd)) 10000
                  let price_impact_usd := -price_impact_usd_raw
                  let max_impact := divI (u128AsI128 size_usd) 10
                  .ok (min (max price_impact_usd (-max_impact)) max_impact)

structure QuoteResult where
  execution_price : Nat
  price_impact_usd : Int
  deriving DecidableEq, Repr

/-- `PricingModule::quote`. -/
def quote (st : DexState) (market : String) (side : OrderSide) (size_usd : Nat)
    (is_increase : Bool) : Res QuoteResult :=
  match st.market_configs market with
  | none => .err .MarketNotFound
  | some cfg =>
    match st.pool_amounts market with
    | none => .err .MarketNotFound
    | some pool =>
      let pk := price_key st market
      match oracle_mid st pk with
      | .err e => .err e
      | .ok mid =>
        match oracle_spread st pk with
        | .err e => .err e
        | .ok spread =>
          let ask := satAdd mid (spread / 2)
          let bid := satSub mid (spread / 2)
          match calculate_price_impact_usd pool cfg side size_usd is_increase with
          | .err e => .err e
          | .ok price_impact_usd =>
            let price_impact_bps :=
              if size_usd > 0 then divI (wMulI price_impact_usd 10000) (u128AsI128 size_usd)
              else 0
            let base_price :=
              match side, is_increase with
              | OrderSide.Long, true => ask
              | OrderSide.Long, false => bid
              | OrderSide.Short, true => bid
              | OrderSide.Short, false => ask
            let impact_abs := satMul base_price price_impact_bps.natAbs / 10000
            let execution_price_unclamped :=
              if price_impact_bps ≥ 0 then
                match side, is_increase with
                | OrderSide.Long, true => satSub base_price impact_abs
                | OrderSide.Long, false => satAdd base_price impact_abs
                | OrderSide.Short, true => satAdd base_price impact_abs
                | OrderSide.Short, false => satSub base_price impact_abs
              else
                match side, is_increase with
                | OrderSide.Long, true => satAdd base_price impact_abs
                | OrderSide.Long, false => satSub base_price impact_abs
                | OrderSide.Short, true => satSub base_price impact_abs
                | OrderSide.Short, false => satAdd base_price impact_abs
            let max_deviation := mid / 10
            let execution_price :=
              min (max execution_price_unclamped (satSub mid max_deviation)) (satAdd mid max_deviation)
            .ok { execution_price := execution_price, price_impact_usd := price_impact_usd }

/-! ## Order state machine (`modules/trading.rs`) -/

def order_side_to_bool (side : OrderSide) : Bool :=
  match side with
  | OrderSide.Long => true
  | OrderSide.Short => false

def bool_to_order_side (is_long : Bool) : OrderSide :=
  if is_long then OrderSide.Long else OrderSide.Short

/-- `TradingModule::validate_order_params`. -/
def validate_order_params (params : CreateOrderParams) : Res Unit :=
  if params.size_delta_usd = 0 then .err .InvalidOrderSize
  else if params.trigger_price = 0 ∨ params.acceptable_price = 0 then .err .InvalidPrice
  else if (params.order_type = OrderType.MarketIncrease ∨
           params.order_type = OrderType.LimitIncrease) ∧
          params.collateral_delta_amount = 0 then .err .InvalidCollateralAmount
  else .ok ()

/-- `TradingModule::can_execute_limit_order`. -/
def can_execute_limit_order (params : CreateOrderParams) (current_price : Nat) : Bool :=
  let is_long := order_side_to_bool params.side
  match params.order_type with
  | OrderType.LimitIncrease =>
    if is_long then current_price ≤ params.trigger_price
    else current_price ≥ params.trigger_price
  | OrderType.LimitDecrease =>
    if is_long then current_price ≥ params.trigger_price
    else current_price ≤ params.trigger_price
  | OrderType.StopLossDecrease =>
    if is_long then current_price ≤ params.trigger_price
    else current_price ≥ params.trigger_price
  | _ => false

/-- `TradingModule::validate_execution_price`. -/
def validate_execution_price (params : CreateOrderParams) (execution_price : Nat) : Res Unit :=
  let is_long := order_side_to_bool params.side
  let is_increase : Bool := params.order_type = OrderType.MarketIncrease ∨
    params.order_type = OrderType.LimitIncrease
  let ok : Bool :=
    match is_long, is_increase with
    | true, true => execution_price ≤ params.acceptable_price
    | true, false => execution_price ≥ params.acceptable_price
    | false, true => execution_price ≥ params.acceptable_price
    | false, false => execution_price ≤ params.acceptable_price
  if ok then .ok () else .err .PriceNotAcceptable

/-- `TradingModule::execute_position_change`. -/
def execute_position_change (st : DexState) (caller : ActorId) (params : CreateOrderParams)
    (price : Nat) (now height : Nat) : Res PositionKey × DexState :=
  let is_long := order_side_to_bool params.side
  match params.order_type with
  | OrderType.MarketIncrease =>
    increase_position st caller params.market params.collateral_token is_long
      params.size_delta_usd params.collateral_delta_amount price now height
  | OrderType.LimitIncrease =>
    increase_position st caller params.market params.collateral_token is_long
      params.size_delta_usd params.collateral_delta_amount price now height
  | OrderType.MarketDecrease =>
    decrease_position st caller params.market params.collateral_token is_long
      params.size_delta_usd params.collateral_delta_amount price now height
  | OrderType.LimitDecrease =>
    decrease_position st caller params.market params.collateral_token is_long
      params.size_delta_usd params.collateral_delta_amount price now height
  | OrderType.StopLossDecrease =>
    decrease_position st caller params.market params.collateral_token is_long
      params.size_delta_usd params.collateral_delta_amount price now height
  | _ => (.err .UnsupportedOrderType, st)

/-- `TradingModule::execute_market_order` and `execute_limit_order` (their
bodies are identical): acceptable-price validation, then the position change. -/
def execute_order_now (st : DexState) (caller : ActorId) (params : CreateOrderParams)
    (execution_price : Nat) (now height : Nat) : Res ExecutionResult × DexState :=
  match validate_execution_price params execution_price with
  | .err e => (.err e, st)
  | .ok _ =>
    match execute_position_change st caller params execution_price now height with
    | (.err e, st') => (.err e, st')
    | (.ok position_key, st') =>
      (.ok (ExecutionResult.Executed position_key execution_price), st')

/-- `TradingModule::save_order`. -/
def save_order (st : DexState) (caller : ActorId) (params : CreateOrderParams)
    (now height : Nat) : Res ExecutionResult × DexState :=
  let key := st.next_request_id
  let st := { st with next_request_id := st.next_request_id + 1 }
  let order : Order :=
    { key := key, account := caller, receiver := caller, market := params.market,
      collateral_token := params.collateral_token, order_type := params.order_type,
      size_delta_usd := params.size_delta_usd,
      collateral_delta_amount := params.collateral_delta_amount,
      trigger_price := params.trigger_price, acceptable_price := params.acceptable_price,
      min_output_amount := 0, is_long := order_side_to_bool params.side, is_frozen := false,
      status := OrderStatus.Created, execution_fee := params.execution_fee,
      created_at_block := height, created_at_time := now,
      updated_at_block := height, updated_at_time := now }
  let st := { st with orders := updN st.orders key (some order) }
  let ao := updL st.account_orders caller (st.account_orders caller ++ [key])
  let st := { st with account_orders := ao }
  (.ok (ExecutionResult.Saved key), st)

/-- `TradingModule::create_order`. -/
def create_order (st : DexState) (caller : ActorId) (params : CreateOrderParams)
    (now height : Nat) : Res ExecutionResult × DexState :=
  if (st.markets params.market).isNone then (.err .MarketNotFound, st)
  else
    match validate_order_params params with
    | .err e => (.err e, st)
    | .ok _ =>
      match oracle_mid st params.market with
      | .err e => (.err e, st)
      | .ok mid =>
        match oracle_spread st params.market with
        | .err e => (.err e, st)
        | .ok _spread =>
          match last_update st params.market with
          | none => (.err .PriceStale, st)
          | some last =>
            if satSub now last > st.oracle.config.max_age_seconds then (.err .PriceStale, st)
            else
              match params.order_type with
              | OrderType.MarketIncrease => execute_order_now st caller params mid now height
              | OrderType.MarketDecrease => execute_order_now st caller params mid now height
              | OrderType.LimitIncrease =>
                if can_execute_limit_order params mid then
                  execute_order_now st caller params mid now height
                else save_order st caller params now height
              | OrderType.LimitDecrease =>
                if can_execute_limit_order params mid then
                  execute_order_now st caller params mid now height
                else save_order st caller params now height
              | OrderType.StopLossDecrease =>
                if can_execute_limit_order params mid then
                  execute_order_now st caller params mid now height
                else save_order st caller params now height
              | _ => (.err .UnsupportedOrderType, st)

/-- `TradingModule::order_to_params`. -/
def order_to_params (order : Order) : CreateOrderParams :=
  { market := order.market, collateral_token := order.collateral_token,
    order_type := order.order_type, side := bool_to_order_side order.is_long,
    size_delta_usd := order.size_delta_usd,
    collateral_delta_amount := order.collateral_delta_amount,
    trigger_price := order.trigger_price, acceptable_price := order.acceptable_price,
    execution_fee := order.execution_fee }

/-- `TradingModule::execute_saved_order`. -/
def execute_saved_order (st : DexState) (executor : ActorId) (key : RequestKey)
    (now height : Nat) : Res ExecutionResult × DexState :=
  match st.orders key with
  | none => (.err .OrderNotFound, st)
  | some order =>
    if order.status ≠ OrderStatus.Created then (.err .OrderAlreadyProcessed, st)
    else
      match oracle_mid st order.market with
      | .err e => (.err e, st)
      | .ok mid =>
        match last_update st order.market with
        | none => (.err .PriceStale, st)
        | some last =>
          if satSub now last > st.oracle.config.max_age_seconds then (.err .PriceStale, st)
          else
            let params := order_to_params order
            if !can_execute_limit_order params mid then (.err .OrderCannotBeExecutedYet, st)
            else
              match validate_execution_price params mid with
              | .err e => (.err e, st)
              | .ok _ =>
                match execute_position_change st order.account params mid now height with
                | (.err e, st') => (.err e, st')
                | (.ok position_key, st') =>
                  match st'.orders key with
                  | none => (.err .OrderNotFound, st')
                  | some order' =>
                    let order' := { order' with
                      status := OrderStatus.Executed
                      updated_at_block := height
                      updated_at_time := now }
                    let st' := { st' with orders := updN st'.orders key (some order') }
                    (.ok (ExecutionResult.Executed position_key mid), st')

/-- `TradingModule::update_order`. -/
def update_order (st : DexState) (caller : ActorId) (key : RequestKey)
    (params : UpdateOrderParams) (now height : Nat) : Res Unit × DexState :=
  match st.orders key with
  | none => (.err .OrderNotFound, st)
  | some order =>
    if order.account ≠ caller then (.err .Unauthorized, st)
    else if order.status ≠ OrderStatus.Created then (.err .OrderAlreadyProcessed, st)
    else
      let order := match params.size_delta_usd with
        | some size => { order with size_delta_usd := size }
        | none => order
      let order := match params.trigger_price with
        | some trigger => { order with trigger_price := trigger }
        | none => order
      let order := match params.acceptable_price with
        | some acceptable => { order with acceptable_price := acceptable }
        | none => order
      let order := { order with
        updated_at_block := height
        updated_at_time := now }
      (.ok (), { st with orders := updN st.orders key (some order) })

/-- `TradingModule::cancel_order`. -/
def cancel_order (st : DexState) (caller : ActorId) (key : RequestKey) (now height : Nat) :
    Res Unit × DexState :=
  match st.orders key with
  | none => (.err .OrderNotFound, st)
  | some order =>
    if order.account ≠ caller then (.err .Unauthorized, st)
    else if order.status ≠ OrderStatus.Created then (.err .OrderAlreadyProcessed, st)
    else
      let order := { order with
        status := OrderStatus.Cancelled
        updated_at_block := height
        updated_at_time := now }
      (.ok (), { st with orders := updN st.orders key (some order) })

/-! ## Concrete fixtures used by the claim witnesses and counterexamples -/

/-- A representative market configuration. -/
def cfgStd : MarketConfig :=
  { pi_factor_positive := 100, pi_factor_negative := 200, pi_exponent := 2,
    funding_factor := 100, funding_exponent := 1, funding_factor_above_kink := 0,
    optimal_imbalance_ratio := 0, borrowing_factor := 100, borrowing_exponent := 1,
    skip_borrowing_for_smaller_side := false, trading_fee_bps := 10, max_leverage := 10,
    min_collateral_usd := 0, liquidation_threshold_bps := 8000, reserve_factor_bps := 10000,
    max_long_oi := 1000000000000000, max_short_oi := 1000000000000000 }

def mktStd : Market :=
  { market_token := 99, index_token := "IDX", long_token := "LT", short_token := "ST" }

/-- A state with one market `M` (index `IDX`, tokens `LT`/`ST`), a deep pool,
fresh oracle prices for every key, and trader `1` holding `1_000` USD. -/
def stBase : DexState :=
  let st := initState 0
  { st with
    markets := upd st.markets "M" (some mktStd)
    market_configs := upd st.market_configs "M" (some cfgStd)
    pool_amounts := upd st.pool_amounts "M"
      (some { PoolAmounts.default with liquidity_usd := 1000000000000000 })
    market_tokens := upd st.market_tokens "M" (some MarketTokenInfo.default)
    balances := fun a => if a = 1 then some 1000000000 else none
    oracle := { st.oracle with
      prices := fun t =>
        if t = "M" then some { min := 100000000, max := 100000000 }
        else if t = "IDX" then some { min := 100000000, max := 100000000 }
        else if t = "LT" then some { min := 1000000, max := 1000000 }
        else if t = "ST" then some { min := 1000000, max := 1000000 }
        else none
      timestamps := fun t => if t = "M" then some 95 else none } }

/-- Remove-liquidity fixture: supply 100 shares, LP 7 holds only 5. -/
def stRL : DexState :=
  let mt : MarketTokenInfo := { total_supply := 100, balances := [(7, 5)] }
  { stBase with market_tokens := upd stBase.market_tokens "M" (some mt) }

def paramsMI : CreateOrderParams :=
  { market := "M", collateral_token := "CT", order_type := OrderType.MarketIncrease,
    side := OrderSide.Long, size_delta_usd := 10000000000,
    collateral_delta_amount := 1000000000, trigger_price := 1,
    acceptable_price := 100000000, execution_fee := 0 }

/-- The position of the spec's liquidation scenario: long, `10_000` USD size,
`1_000` USD collateral, entry `100` USD. -/
def posStd : Position :=
  { key := { account := 1, market := "M", collateral_token := "CT", is_long := true },
    account := 1, market := "M", collateral_token := "CT", is_long := true,
    size_usd := 10000000000, collateral_usd := 1000000000, entry_price_usd := 100000000,
    liquidation_price_usd := 0, funding_fee_per_usd := 0, borrowing_factor := 0,
    increased_at_block := 0, decreased_at_block := 0, last_fee_update := 0 }

/-- A variant of `stBase` whose oracle quotes a nonzero spread on the market
key and its index token. -/
def stSpread : DexState :=
  { stBase with oracle := { stBase.oracle with
      prices := fun t =>
        if t = "M" then some { min := 99999000, max := 100001000 }
        else if t = "IDX" then some { min := 99999000, max := 100001000 }
        else stBase.oracle.prices t } }

/-! ## Helper lemmas about the machine arithmetic -/

theorem satAdd_eq {a b : Nat} (h : a + b ≤ U128_MAX) : satAdd a b = a + b := by
  simp [satAdd, Nat.min_eq_left h]

theorem satMul_eq {a b : Nat} (h : a * b ≤ U128_MAX) : satMul a b = a * b := by
  simp [satMul, Nat.min_eq_left h]

theorem u128AsI128_eq {n : Nat} (h : n < 2 ^ 127) : u128AsI128 n = (n : Int) := by
  simp only [u128AsI128, if_pos h]

theorem clampI_eq {x : Int} (h1 : I128_MIN ≤ x) (h2 : x ≤ I128_MAX) : clampI x = x := by
  unfold clampI
  omega

theorem satAddI_eq {a b : Int} (h1 : I128_MIN ≤ a + b) (h2 : a + b ≤ I128_MAX) :
    satAddI a b = a + b := clampI_eq h1 h2

theorem satSubI_eq {a b : Int} (h1 : I128_MIN ≤ a - b) (h2 : a - b ≤ I128_MAX) :
    satSubI a b = a - b := clampI_eq h1 h2

theorem satMulI_eq {a b : Int} (h1 : I128_MIN ≤ a * b) (h2 : a * b ≤ I128_MAX) :
    satMulI a b = a * b := clampI_eq h1 h2

theorem clampI_natAbs_le (x : Int) : (clampI x).natAbs ≤ x.natAbs := by
  unfold clampI I128_MIN I128_MAX
  omega

/-! ## Further fixtures -/

/-- The position key produced by `increase_position` for trader `1` on
market `M` with collateral token `CT`, long side. -/
def posKeyStd : PositionKey :=
  { account := 1, market := "M", collateral_token := "CT", is_long := true }

/-- `stBase` with a genuinely empty pool on `M` (the bootstrap case). -/
def stEmptyPool : DexState :=
  { stBase with pool_amounts := upd stBase.pool_amounts "M" (some PoolAmounts.default) }

/-- An order at key `1` owned by account `2`, already `Executed`. -/
def ordExecuted : Order :=
  { key := 1, account := 2, receiver := 2, market := "M", collateral_token := "CT",
    order_type := OrderType.LimitIncrease, size_delta_usd := 5000000,
    collateral_delta_amount := 1000000, trigger_price := 90000000,
    acceptable_price := 95000000, min_output_amount := 0, is_long := true,
    is_frozen := false, status := OrderStatus.Executed, execution_fee := 0,
    created_at_block := 1, created_at_time := 10, updated_at_block := 2,
    updated_at_time := 20 }

/-- `stBase` with `ordExecuted` stored at key `1`. -/
def stOrder : DexState :=
  { stBase with orders := updN stBase.orders 1 (some ordExecuted) }

/-! ## C1 -/

/-- C1: the claim that no error path commits a partial mutation fails on the
code.  `remove_liquidity` on a market whose LP-share balance is insufficient
returns `InsufficientMarketTokens`, but only after it has already removed the
market's pool entry and LP-share ledger entry from their tables: the ledger
before the call has a pool for `M`, the ledger after the failed call does
not. -/
theorem c1_remove_liquidity_error_commits_partial_mutation :
    (remove_liquidity stRL 7 "M" 50 0 0).1 = .err .InsufficientMarketTokens
  ∧ (stRL.pool_amounts "M").isSome = true
  ∧ (stRL.market_tokens "M").isSome = true
  ∧ ((remove_liquidity stRL 7 "M" 50 0 0).2.pool_amounts "M").isSome = false
  ∧ ((remove_liquidity stRL 7 "M" 50 0 0).2.market_tokens "M").isSome = false := by
  refine ⟨by decide, by decide, by decide, by decide, by decide⟩

/-! ## C3 -/

/-- C3: the claim fails on the code: no order-execution path calls
`accrue_pool`.  A `MarketIncrease` order created at time `100` on a pool
whose `last_funding_update` is `0` executes the position change, yet the
pool's `last_funding_update` is still `0`, not the current timestamp. -/
theorem c3_order_execution_does_not_accrue_funding :
    (create_order stBase 1 paramsMI 100 5).1 =
      .ok (ExecutionResult.Executed posKeyStd 100000000)
  ∧ ((create_order stBase 1 paramsMI 100 5).2.pool_amounts "M").map
      (fun p => p.last_funding_update) = some 0
  ∧ (stBase.pool_amounts "M").map (fun p => p.last_funding_update) = some 0
  ∧ (0 : Nat) ≠ 100 := by
  refine ⟨by decide, by decide, by decide, by decide⟩

/-! ## C8 -/

/-- C8 counterexample: a `MarketIncrease` order with `trigger_price == 0` IS
rejected by parameter validation (with `InvalidPrice`), contrary to the
claim that only limit/stop types require a nonzero trigger price. -/
theorem c8_market_order_with_zero_trigger_rejected :
    validate_order_params
      { market := "M", collateral_token := "CT", order_type := OrderType.MarketIncrease,
        side := OrderSide.Long, size_delta_usd := 1, collateral_delta_amount := 1,
        trigger_price := 0, acceptable_price := 1, execution_fee := 0 }
      = .err .InvalidPrice := by decide

/-- C8 amended: `validate_order_params` accepts exactly the orders with
`size_delta_usd > 0`, `trigger_price > 0` (for **every** order type, market
types included), `acceptable_price > 0`, and nonzero
`collateral_delta_amount` for the increase types. -/
theorem c8_validate_order_params_characterization (params : CreateOrderParams) :
    validate_order_params params = .ok () ↔
      params.size_delta_usd ≠ 0 ∧ params.trigger_price ≠ 0 ∧ params.acceptable_price ≠ 0 ∧
      ((params.order_type = OrderType.MarketIncrease ∨
        params.order_type = OrderType.LimitIncrease) → params.collateral_delta_amount ≠ 0) := by
  unfold validate_order_params
  split_ifs with h1 h2 h3 <;> simp_all <;> tauto

/-! ## C10 -/

/-- C10: for every stored order and every caller other than the order's
account, both `update_order` and `cancel_order` return `Unauthorized` and
leave the whole ledger state unchanged, whatever the order's status: the
ownership check precedes the status check in both functions. -/
theorem c10_non_owner_gets_unauthorized_unchanged (st : DexState) (caller : ActorId)
    (key : RequestKey) (params : UpdateOrderParams) (now height : Nat) (o : Order)
    (horder : st.orders key = some o) (hown : o.account ≠ caller) :
    update_order st caller key params now height = (.err .Unauthorized, st)
  ∧ cancel_order st caller key now height = (.err .Unauthorized, st) := by
  constructor <;> simp [update_order, cancel_order, horder, hown]

/-- An update request used by the C10 witness. -/
def updParamsW : UpdateOrderParams :=
  { size_delta_usd := some 7, trigger_price := none, acceptable_price := none }

/-- Witness for C10 at a concrete ledger: account `3` acting on the order of
account `2` (an order in the terminal `Executed` status). -/
theorem c10_non_owner_gets_unauthorized_unchanged_witness :
    update_order stOrder 3 1 updParamsW 100 5 = (.err .Unauthorized, stOrder)
  ∧ cancel_order stOrder 3 1 100 5 = (.err .Unauthorized, stOrder) :=
  c10_non_owner_gets_unauthorized_unchanged stOrder 3 1 updParamsW
    100 5 ordExecuted (by decide) (by decide)

/-! ## C5 -/

/-- C5 counterexample: an `increase_position` request with zero collateral
delta on a fresh key succeeds and stores a position with positive size and
zero collateral — a request that exceeds every leverage bound (the staged
leverage check is skipped when `collateral_usd = 0`), contrary to the claim
that any request exceeding the configured maximum fails
`MaxLeverageExceeded`. -/
theorem c5_zero_collateral_increase_bypasses_leverage_check :
    (increase_position stBase 1 "M" "CT" true 10000000000 0 100000000 100 5).1 = .ok posKeyStd
  ∧ ((increase_position stBase 1 "M" "CT" true 10000000000 0 100000000 100 5).2.positions
      posKeyStd).map (fun p => (p.size_usd, p.collateral_usd)) = some (10000000000, 0)
  ∧ satMul (10000000000 : Nat) 10000 > satMul cfgStd.max_leverage 10000 * 0 := by
  refine ⟨by decide, by decide, by decide⟩

/-- The leverage bound delivered by the commit phase of `increase_position`:
a successful commit that stores a position with positive collateral
satisfies the staged leverage check. -/
theorem increase_position_commit_leverage (st : DexState) (key : PositionKey) (pos : Position)
    (isnew : Bool) (account : ActorId) (market : String) (il : Bool)
    (sd cd px height : Nat) (cfg : MarketConfig) (tc : Nat) (k : PositionKey) (pos' : Position)
    (hok : (increase_position_commit st key pos isnew account market il sd cd px height cfg tc).1
      = .ok k)
    (hpos : (increase_position_commit st key pos isnew account market il sd cd px height cfg
      tc).2.positions k = some pos')
    (hcol : 0 < pos'.collateral_usd) :
    satMul pos'.size_usd 10000 / pos'.collateral_usd ≤ satMul cfg.max_leverage 10000 := by
  unfold increase_position_commit at hok hpos
  simp only [] at hok hpos
  cases il <;>
  · simp only [Bool.false_eq_true, if_false, if_true, reduceIte] at hok hpos
    split at hok
    case isTrue => exact absurd hok (by simp)
    case isFalse hc1 =>
    rw [if_neg hc1] at hpos
    split at hok
    case isTrue => exact absurd hok (by simp)
    case isFalse hc2 =>
    rw [if_neg hc2] at hpos
    split at hok
    case isTrue => exact absurd hok (by simp)
    case isFalse hc3 =>
    rw [if_neg hc3] at hpos
    split at hok
    case isTrue => exact absurd hok (by simp)
    case isFalse hc4 =>
    rw [if_neg hc4] at hpos
    simp only [Res.ok.injEq] at hok
    subst hok
    simp only [insert_position, updP] at hpos
    simp only [if_pos trivial, eq_self_iff_true, if_true, Option.some.injEq] at hpos
    subst hpos
    push_neg at hc4
    rcases Nat.eq_zero_or_pos
      ((staged_with_liq_price (staged_increase_pos pos sd cd px height)
        cfg.liquidation_threshold_bps).size_usd) with hz | hp
    · simp [hz, satMul]
    · exact hc4 hcol hp

/-- C5 amended: after any successful `increase_position` whose resulting
position has positive collateral, the stored position satisfies
`size_usd * 10_000 / collateral_usd ≤ max_leverage * 10_000` (in the source's
saturating arithmetic); the spec's scenario holds as stated: a `10_000` USD
long on `1_000` USD collateral at `max_leverage = 10` succeeds (exactly 10x)
and `10_001` USD notional on the same collateral fails `MaxLeverageExceeded`.
The bound is conditional on positive resulting collateral: a zero-collateral
increase bypasses the check (see the counterexample). -/
theorem c5_leverage_bound_after_successful_increase :
    (∀ (st : DexState) (account : ActorId) (market ct : String) (il : Bool)
        (sd cd px now height : Nat) (cfg : MarketConfig) (k : PositionKey) (pos' : Position),
      st.market_configs market = some cfg →
      (increase_position st account market ct il sd cd px now height).1 = .ok k →
      (increase_position st account market ct il sd cd px now height).2.positions k = some pos' →
      0 < pos'.collateral_usd →
      satMul pos'.size_usd 10000 / pos'.collateral_usd ≤ satMul cfg.max_leverage 10000)
  ∧ (increase_position stBase 1 "M" "CT" true 10000000000 1000000000 100000000 100 5).1
      = .ok posKeyStd
  ∧ (increase_position stBase 1 "M" "CT" true 10001000000 1000000000 100000000 100 5).1
      = .err .MaxLeverageExceeded := by
  refine ⟨?_, by decide, by decide⟩
  intro st account market ct il sd cd px now height cfg k pos' hcfg hok hpos hcol
  unfold increase_position at hok hpos
  rw [hcfg] at hok hpos
  simp only [] at hok hpos
  split at hok
  case isTrue => exact absurd hok (by simp)
  case isFalse hb =>
  rw [if_neg hb] at hpos
  split at hok
  case h_1 existing heq =>
    rw [heq] at hpos
    simp only [] at hok hpos
    split at hok
    case h_1 e herr => exact absurd hok (by simp)
    case h_2 fees hset =>
      rw [hset] at hpos
      simp only [] at hpos
      exact increase_position_commit_leverage _ _ _ _ _ _ _ _ _ _ _ _ _ _ _ hok hpos hcol
  case h_2 heq =>
    rw [heq] at hpos
    simp only [] at hok hpos
    exact increase_position_commit_leverage _ _ _ _ _ _ _ _ _ _ _ _ _ _ _ hok hpos hcol

/-- The position stored by the C5 witness scenario. -/
def posW : Position :=
  { key := posKeyStd, account := 1, market := "M", collateral_token := "CT",
    is_long := true, size_usd := 10000000000, collateral_usd := 1000000000,
    entry_price_usd := 100000000, liquidation_price_usd := 98000000,
    funding_fee_per_usd := 0, borrowing_factor := 0, increased_at_block := 5,
    decreased_at_block := 0, last_fee_update := 100 }

/-- Witness for C5 at the spec's own scenario (10x leverage, exactly at the
cap). -/
theorem c5_leverage_bound_after_successful_increase_witness :
    satMul posW.size_usd 10000 / posW.collateral_usd ≤ satMul cfgStd.max_leverage 10000 :=
  c5_leverage_bound_after_successful_increase.1 stBase 1 "M" "CT" true
    10000000000 1000000000 100000000 100 5 cfgStd posKeyStd posW
    (by decide) (by decide) (by decide) (by decide)

/-! ## C6 -/

/-- C6 counterexample: on an empty market, depositing `1_000` long tokens and
`1_000` short tokens (micro-token amounts `10^9` each) at a `1` USD oracle
price mints `2_000_000_000` micro-USD shares, not the `2_000_000` claimed:
the scenario's figure is off by a factor of `1_000`. -/
theorem c6_bootstrap_scenario_mints_two_billion :
    (add_liquidity stEmptyPool 7 "M" 1000000000 1000000000 0).1 = .ok 2000000000
  ∧ ((add_liquidity stEmptyPool 7 "M" 1000000000 1000000000 0).2.market_tokens "M").map
      (fun t => t.total_supply) = some 2000000000
  ∧ (2000000000 : Nat) ≠ 2000000 := by
  refine ⟨by decide, by decide, by decide⟩

/-- C6 amended: `add_liquidity` mints the deposited USD value when
`total_supply == 0` and otherwise `total_supply * added_usd / liquidity_usd`
against the pre-deposit pool value; it fails `SlippageExceeded` exactly when
that mint is below `min_mint`, and on success `liquidity_usd` grows by the
deposited USD value and `total_supply` by the mint.  (The spec scenario's
figure is corrected from `2_000_000` to `2_000_000_000` micro-USD shares for
a deposit of `1_000` long and `1_000` short tokens at `1` USD.) -/
theorem c6_add_liquidity_mint_formula (st : DexState) (lp : ActorId) (m : String)
    (la sa min_mint : Nat) (mkt : Market) (lpx spx : Nat) (pool : PoolAmounts)
    (mt : MarketTokenInfo) (added mint : Nat)
    (hm : st.markets m = some mkt)
    (hlp : oracle_mid st mkt.long_token = .ok lpx)
    (hsp : oracle_mid st mkt.short_token = .ok spx)
    (hpool : st.pool_amounts m = some pool)
    (hmt : st.market_tokens m = some mt)
    (hguard : mt.total_supply = 0 ∨ 0 < pool.liquidity_usd)
    (hadded : added = satAdd (satMul la lpx / USD_SCALE) (satMul sa spx / USD_SCALE))
    (hmint : mint = if mt.total_supply = 0 then added
      else satMul mt.total_supply added / pool.liquidity_usd)
    (hb1 : satMul la lpx / USD_SCALE + satMul sa spx / USD_SCALE ≤ U128_MAX)
    (hb2 : pool.liquidity_usd + added ≤ U128_MAX)
    (hb3 : mt.total_supply + mint ≤ U128_MAX) :
    ((add_liquidity st lp m la sa min_mint).1 = .err .SlippageExceeded ↔ mint < min_mint)
  ∧ (min_mint ≤ mint →
      (add_liquidity st lp m la sa min_mint).1 = .ok mint
      ∧ ((add_liquidity st lp m la sa min_mint).2.pool_amounts m).map
          (fun p => p.liquidity_usd) = some (pool.liquidity_usd + added)
      ∧ ((add_liquidity st lp m la sa min_mint).2.market_tokens m).map
          (fun t => t.total_supply) = some (mt.total_supply + mint)) := by
  unfold add_liquidity
  rw [hm]
  simp only []
  rw [hlp]
  simp only []
  rw [hsp]
  simp only []
  rw [hpool]
  simp only []
  rw [hmt]
  simp only []
  generalize hglu : satMul la lpx / USD_SCALE = lu at hadded hb1 ⊢
  generalize hgsu : satMul sa spx / USD_SCALE = su at hadded hb1 ⊢
  have hadd_eq : satAdd lu su = lu + su := satAdd_eq hb1
  rw [hadded, hadd_eq] at hb2
  rcases Nat.eq_zero_or_pos mt.total_supply with hts | hts
  · rw [if_pos hts]
    rw [if_pos hts] at hmint
    rw [hmint, hadded]
    unfold add_liquidity_commit
    constructor
    · constructor
      · intro herr
        by_contra hge
        rw [if_neg hge] at herr
        simp at herr
      · intro hlt
        rw [if_pos hlt]
    · intro hge
      rw [if_neg (by omega)]
      refine ⟨rfl, ?_, ?_⟩
      · simp only [upd, if_pos rfl]
        have h1 : satAdd pool.liquidity_usd lu = pool.liquidity_usd + lu :=
          satAdd_eq (by omega)
        have h2 : satAdd (satAdd pool.liquidity_usd lu) su
            = pool.liquidity_usd + (lu + su) := by
          rw [h1, satAdd_eq (by omega)]
          omega
        simp [h2, hadded, hadd_eq]
      · simp only [upd, if_pos rfl]
        rw [hadded, hadd_eq] at hmint
        have h3 : satAdd mt.total_supply (lu + su) = mt.total_supply + (lu + su) :=
          satAdd_eq (by omega)
        simp [hadded, hadd_eq, h3]
  · rw [if_neg (by omega), if_neg (by omega)]
    rcases hguard with h0 | hpl
    · omega
    rw [if_neg (by omega)] at hmint
    rw [hmint, hadded]
    unfold add_liquidity_commit
    constructor
    · constructor
      · intro herr
        by_contra hge
        rw [if_neg hge] at herr
        simp at herr
      · intro hlt
        rw [if_pos hlt]
    · intro hge
      rw [if_neg (by omega)]
      refine ⟨rfl, ?_, ?_⟩
      · simp only [upd, if_pos rfl]
        have h1 : satAdd pool.liquidity_usd lu = pool.liquidity_usd + lu :=
          satAdd_eq (by omega)
        have h2 : satAdd (satAdd pool.liquidity_usd lu) su
            = pool.liquidity_usd + (lu + su) := by
          rw [h1, satAdd_eq (by omega)]
          omega
        simp [h2, hadded, hadd_eq]
      · simp only [upd, if_pos rfl]
        rw [hadded, hadd_eq] at hmint
        have h3 : satAdd mt.total_supply (satMul mt.total_supply (lu + su)
            / pool.liquidity_usd) = mt.total_supply
              + satMul mt.total_supply (lu + su) / pool.liquidity_usd :=
          satAdd_eq (by omega)
        simp [hadded, hadd_eq, h3]

/-- Witness for C6 at the empty-market bootstrap deposit. -/
theorem c6_add_liquidity_mint_formula_witness :
    ((add_liquidity stEmptyPool 7 "M" 1000000000 1000000000 0).1
        = .err .SlippageExceeded ↔ (2000000000 : Nat) < 0)
  ∧ ((0 : Nat) ≤ 2000000000 →
      (add_liquidity stEmptyPool 7 "M" 1000000000 1000000000 0).1 = .ok 2000000000
      ∧ ((add_liquidity stEmptyPool 7 "M" 1000000000 1000000000 0).2.pool_amounts "M").map
          (fun p => p.liquidity_usd) = some (0 + 2000000000)
      ∧ ((add_liquidity stEmptyPool 7 "M" 1000000000 1000000000 0).2.market_tokens "M").map
          (fun t => t.total_supply) = some (0 + 2000000000)) :=
  c6_add_liquidity_mint_formula stEmptyPool 7 "M" 1000000000 1000000000 0 mktStd
    1000000 1000000 PoolAmounts.default MarketTokenInfo.default 2000000000 2000000000
    (by decide) (by decide) (by decide) (by decide) (by decide) (Or.inl (by decide))
    (by decide) (by decide) (by decide) (by decide) (by decide)

/-! ## C4 -/

/-- C4 counterexample: with a nonzero oracle spread and balanced open
interest, the PricingEngine quote for a long market increase is the ask
(`100_001_000`), yet `create_order` executes the order at the raw oracle mid
(`100_000_000`): the quote is never consulted. -/
theorem c4_market_order_executes_at_mid_not_at_quote :
    (create_order stSpread 1 paramsMI 100 5).1 =
      .ok (ExecutionResult.Executed posKeyStd 100000000)
  ∧ quote stSpread "M" OrderSide.Long 10000000000 true =
      .ok { execution_price := 100001000, price_impact_usd := 0 }
  ∧ (100000000 : Nat) ≠ 100001000 := by
  refine ⟨by decide, by decide, by decide⟩

/-- A successful `oracle_mid` read is the midpoint of a stored price pair. -/
theorem oracle_mid_ok (st : DexState) (token : String) (v : Nat)
    (h : oracle_mid st token = .ok v) :
    ∃ pr, st.oracle.prices token = some pr ∧ v = wAdd pr.min pr.max / 2 := by
  unfold oracle_mid get_price at h
  split at h
  case h_1 p heq =>
    split at heq
    case h_1 pr heq2 =>
      simp only [Res.ok.injEq] at heq h
      exact ⟨pr, heq2, by rw [← h, ← heq]⟩
    case h_2 => exact absurd heq (by simp)
  case h_2 e heq =>
    split at heq <;> simp_all

/-- The by-direction meaning of a successful `validate_execution_price`. -/
theorem validate_execution_price_spec (params : CreateOrderParams) (p : Nat)
    (h : validate_execution_price params p = .ok ()) :
    (params.side = OrderSide.Long ∧ params.order_type = OrderType.MarketIncrease →
      p ≤ params.acceptable_price)
  ∧ (params.side = OrderSide.Short ∧ params.order_type = OrderType.MarketIncrease →
      params.acceptable_price ≤ p)
  ∧ (params.side = OrderSide.Long ∧ params.order_type = OrderType.MarketDecrease →
      params.acceptable_price ≤ p)
  ∧ (params.side = OrderSide.Short ∧ params.order_type = OrderType.MarketDecrease →
      p ≤ params.acceptable_price) := by
  cases hs : params.side <;> cases ht : params.order_type <;>
    simp_all [validate_execution_price, order_side_to_bool]

/-- C4 amended: for `MarketIncrease` and `MarketDecrease` orders,
`create_order` validates the **raw oracle mid** against `acceptable_price`
by direction and executes the position change at that mid; the
PricingEngine's quote (taker ask/bid with open-interest price impact) is not
consulted on this path. -/
theorem c4_market_order_price_is_oracle_mid (st : DexState) (caller : ActorId)
    (params : CreateOrderParams) (now height : Nat) (pk : PositionKey) (px : Nat)
    (hmk : params.order_type = OrderType.MarketIncrease ∨
      params.order_type = OrderType.MarketDecrease)
    (hok : (create_order st caller params now height).1 =
      .ok (ExecutionResult.Executed pk px)) :
    (∃ pr, st.oracle.prices params.market = some pr ∧ px = wAdd pr.min pr.max / 2)
  ∧ (params.side = OrderSide.Long ∧ params.order_type = OrderType.MarketIncrease →
      px ≤ params.acceptable_price)
  ∧ (params.side = OrderSide.Short ∧ params.order_type = OrderType.MarketIncrease →
      params.acceptable_price ≤ px)
  ∧ (params.side = OrderSide.Long ∧ params.order_type = OrderType.MarketDecrease →
      params.acceptable_price ≤ px)
  ∧ (params.side = OrderSide.Short ∧ params.order_type = OrderType.MarketDecrease →
      px ≤ params.acceptable_price) := by
  unfold create_order at hok
  split at hok
  case isTrue => exact absurd hok (by simp)
  case isFalse hmkt =>
  split at hok
  case h_1 e heq => exact absurd hok (by simp)
  case h_2 u hval =>
  split at hok
  case h_1 e heq => exact absurd hok (by simp)
  case h_2 mid hmid =>
  split at hok
  case h_1 e heq => exact absurd hok (by simp)
  case h_2 spr hspr =>
  split at hok
  case h_1 => exact absurd hok (by simp)
  case h_2 last hlast =>
  split at hok
  case isTrue => exact absurd hok (by simp)
  case isFalse hfresh =>
  have main : validate_execution_price params mid = .ok () ∧ px = mid := by
    rcases hmk with hmk | hmk <;>
    · rw [hmk] at hok
      simp only [] at hok
      unfold execute_order_now at hok
      split at hok
      case h_1 e heq => exact absurd hok (by simp)
      case h_2 u2 hval2 =>
      split at hok
      case h_1 e st2 heq => exact absurd hok (by simp)
      case h_2 pk2 st2 heq =>
        simp only [Res.ok.injEq, ExecutionResult.Executed.injEq] at hok
        cases u2
        exact ⟨hval2, hok.2.symm⟩
  obtain ⟨hval2, hpx⟩ := main
  subst hpx
  obtain ⟨pr, hpr, hmid2⟩ := oracle_mid_ok st params.market px hmid
  exact ⟨⟨pr, hpr, hmid2⟩, (validate_execution_price_spec params px hval2).1,
    (validate_execution_price_spec params px hval2).2.1,
    (validate_execution_price_spec params px hval2).2.2.1,
    (validate_execution_price_spec params px hval2).2.2.2⟩

/-- Witness for C4 at a concrete market-increase order. -/
theorem c4_market_order_price_is_oracle_mid_witness :
    (∃ pr, stBase.oracle.prices paramsMI.market = some pr
      ∧ 100000000 = wAdd pr.min pr.max / 2)
  ∧ (paramsMI.side = OrderSide.Long ∧ paramsMI.order_type = OrderType.MarketIncrease →
      100000000 ≤ paramsMI.acceptable_price)
  ∧ (paramsMI.side = OrderSide.Short ∧ paramsMI.order_type = OrderType.MarketIncrease →
      paramsMI.acceptable_price ≤ 100000000)
  ∧ (paramsMI.side = OrderSide.Long ∧ paramsMI.order_type = OrderType.MarketDecrease →
      paramsMI.acceptable_price ≤ 100000000)
  ∧ (paramsMI.side = OrderSide.Short ∧ paramsMI.order_type = OrderType.MarketDecrease →
      100000000 ≤ paramsMI.acceptable_price) :=
  c4_market_order_price_is_oracle_mid stBase 1 paramsMI 100 5 posKeyStd 100000000
    (Or.inl (by decide)) (by decide)

/-! ## C7 -/

/-- C7 counterexample: for the spec's own scenario position (long, size
`10_000` USD, collateral `1_000` USD, entry `100` USD, `liq_bps = 8_000`)
the cached liquidation price is `98` USD, and the value remaining there is
`collateral * liq_bps / 10_000 = 800` USD — not
`collateral * (1 - liq_bps/10_000) = 200` USD as the claim words it. -/
theorem c7_value_remaining_at_liquidation_price :
    calculate_liquidation_price posStd 8000 = 98000000
  ∧ (posStd.collateral_usd : Int) + calculate_pnl posStd 98000000 = 800000000
  ∧ ((800000000 : Int)
      = (posStd.collateral_usd : Int) * 8000 / 10000
      ∧ (800000000 : Int)
      ≠ (posStd.collateral_usd : Int) * (10000 - 8000) / 10000) := by
  refine ⟨by decide, by decide, by decide, by decide⟩

/-- C7 amended: under exact-division side conditions, the cached liquidation
price is the price at which `collateral_usd * liq_bps / 10_000` of value
remains — equivalently, at which the loss reaches the allowed loss
`collateral_usd * (1 - liq_bps/10_000)` — obtained by inverting the shared
PnL formula; for a long the price lies at or below entry, for a short at or
above. -/
theorem c7_liquidation_price_inverts_pnl (pos : Position) (liq_bps : Nat)
    (hsz : 0 < pos.size_usd) (hen : 0 < pos.entry_price_usd)
    (hsz2 : pos.size_usd < 2 ^ 60) (hen2 : pos.entry_price_usd < 2 ^ 60)
    (hcl2 : pos.collateral_usd < 2 ^ 60) (hlb : liq_bps ≤ 10000)
    (hd1 : 10000 ∣ pos.collateral_usd * liq_bps)
    (hd2 : pos.size_usd ∣
      (pos.collateral_usd - pos.collateral_usd * liq_bps / 10000) * USD_SCALE)
    (hla : pos.collateral_usd - pos.collateral_usd * liq_bps / 10000 ≤ pos.size_usd)
    (hd3 : USD_SCALE ∣ pos.entry_price_usd *
      (if pos.is_long then
        USD_SCALE - (pos.collateral_usd - pos.collateral_usd * liq_bps / 10000)
          * USD_SCALE / pos.size_usd
      else
        USD_SCALE + (pos.collateral_usd - pos.collateral_usd * liq_bps / 10000)
          * USD_SCALE / pos.size_usd)) :
    (pos.collateral_usd : Int) + calculate_pnl pos (calculate_liquidation_price pos liq_bps)
      = ((pos.collateral_usd * liq_bps / 10000 : Nat) : Int)
  ∧ (pos.is_long = true → calculate_liquidation_price pos liq_bps ≤ pos.entry_price_usd)
  ∧ (pos.is_long = false → pos.entry_price_usd ≤ calculate_liquidation_price pos liq_bps) := by
  have husd : (0 : Nat) < USD_SCALE := by decide
  have hnz : ¬(pos.size_usd = 0 ∨ pos.entry_price_usd = 0) := by omega
  have hbCL : pos.collateral_usd * liq_bps ≤ U128_MAX :=
    le_trans (Nat.mul_le_mul hcl2.le hlb) (by decide)
  have hsm1 : satMul pos.collateral_usd liq_bps = pos.collateral_usd * liq_bps :=
    satMul_eq hbCL
  have hTle : pos.collateral_usd * liq_bps / 10000 ≤ pos.collateral_usd := by
    calc pos.collateral_usd * liq_bps / 10000
        ≤ pos.collateral_usd * 10000 / 10000 :=
          Nat.div_le_div_right (Nat.mul_le_mul_left _ hlb)
      _ = pos.collateral_usd := Nat.mul_div_cancel _ (by norm_num)
  have hlaC : pos.collateral_usd - pos.collateral_usd * liq_bps / 10000
      ≤ pos.collateral_usd := Nat.sub_le _ _
  have hbla : (pos.collateral_usd - pos.collateral_usd * liq_bps / 10000) * USD_SCALE
      ≤ U128_MAX :=
    le_trans (Nat.mul_le_mul (le_trans hlaC hcl2.le) (le_refl USD_SCALE)) (by decide)
  have hsm2 : satMul (pos.collateral_usd - pos.collateral_usd * liq_bps / 10000) USD_SCALE
      = (pos.collateral_usd - pos.collateral_usd * liq_bps / 10000) * USD_SCALE :=
    satMul_eq hbla
  have hlr_le : (pos.collateral_usd - pos.collateral_usd * liq_bps / 10000)
      * USD_SCALE / pos.size_usd ≤ USD_SCALE := by
    calc (pos.collateral_usd - pos.collateral_usd * liq_bps / 10000) * USD_SCALE / pos.size_usd
        ≤ pos.size_usd * USD_SCALE / pos.size_usd :=
          Nat.div_le_div_right (Nat.mul_le_mul_right _ hla)
      _ = USD_SCALE := Nat.mul_div_cancel_left _ hsz
  have hlrS : (pos.collateral_usd - pos.collateral_usd * liq_bps / 10000)
      * USD_SCALE / pos.size_usd * pos.size_usd
      = (pos.collateral_usd - pos.collateral_usd * liq_bps / 10000) * USD_SCALE :=
    Nat.div_mul_cancel hd2
  have hSlt : pos.size_usd < 2 ^ 127 := lt_trans hsz2 (by decide)
  have hElt : pos.entry_price_usd < 2 ^ 127 := lt_trans hen2 (by decide)
  have hEla : pos.entry_price_usd * (pos.collateral_usd - pos.collateral_usd * liq_bps / 10000) ≤ 2 ^ 120 :=
    le_trans (Nat.mul_le_mul hen2.le (le_trans hlaC hcl2.le)) (by decide)
  cases hil : pos.is_long
  case true =>
    simp only [hil, if_true] at hd3
    have hbE : pos.entry_price_usd * (USD_SCALE - (pos.collateral_usd - pos.collateral_usd * liq_bps / 10000) * USD_SCALE / pos.size_usd) ≤ U128_MAX :=
      le_trans (Nat.mul_le_mul hen2.le (Nat.sub_le _ _)) (by decide)
    have hP : calculate_liquidation_price pos liq_bps = pos.entry_price_usd * (USD_SCALE - (pos.collateral_usd - pos.collateral_usd * liq_bps / 10000) * USD_SCALE / pos.size_usd) / USD_SCALE := by
      unfold calculate_liquidation_price
      rw [if_neg hnz]
      simp only [hil, if_true, satSub, hsm1, hsm2]
      rw [satMul_eq hbE]
    have hle : pos.entry_price_usd * (USD_SCALE - (pos.collateral_usd - pos.collateral_usd * liq_bps / 10000) * USD_SCALE / pos.size_usd) / USD_SCALE ≤ pos.entry_price_usd := by
      calc pos.entry_price_usd * (USD_SCALE - (pos.collateral_usd - pos.collateral_usd * liq_bps / 10000) * USD_SCALE / pos.size_usd) / USD_SCALE
          ≤ pos.entry_price_usd * USD_SCALE / USD_SCALE :=
            Nat.div_le_div_right (Nat.mul_le_mul_left _ (Nat.sub_le _ _))
        _ = pos.entry_price_usd := Nat.mul_div_cancel _ husd
    have hPlt : pos.entry_price_usd * (USD_SCALE - (pos.collateral_usd - pos.collateral_usd * liq_bps / 10000) * USD_SCALE / pos.size_usd) / USD_SCALE < 2 ^ 127 := lt_of_le_of_lt hle hElt
    have hPm : pos.entry_price_usd * (USD_SCALE - (pos.collateral_usd - pos.collateral_usd * liq_bps / 10000) * USD_SCALE / pos.size_usd) / USD_SCALE * USD_SCALE = pos.entry_price_usd * (USD_SCALE - (pos.collateral_usd - pos.collateral_usd * liq_bps / 10000) * USD_SCALE / pos.size_usd) :=
      Nat.div_mul_cancel hd3
    have hElr_le : pos.entry_price_usd * ((pos.collateral_usd - pos.collateral_usd * liq_bps / 10000) * USD_SCALE / pos.size_usd) ≤ pos.entry_price_usd * USD_SCALE :=
      Nat.mul_le_mul_left _ hlr_le
    have hPUSD : pos.entry_price_usd * (USD_SCALE - (pos.collateral_usd - pos.collateral_usd * liq_bps / 10000) * USD_SCALE / pos.size_usd) / USD_SCALE * USD_SCALE = pos.entry_price_usd * USD_SCALE - pos.entry_price_usd * ((pos.collateral_usd - pos.collateral_usd * liq_bps / 10000) * USD_SCALE / pos.size_usd) := by
      rw [hPm, Nat.mul_sub]
    have hEPU : (pos.entry_price_usd - pos.entry_price_usd * (USD_SCALE - (pos.collateral_usd - pos.collateral_usd * liq_bps / 10000) * USD_SCALE / pos.size_usd) / USD_SCALE) * USD_SCALE = pos.entry_price_usd * ((pos.collateral_usd - pos.collateral_usd * liq_bps / 10000) * USD_SCALE / pos.size_usd) := by
      rw [Nat.sub_mul]
      omega
    have hSEP : pos.size_usd * (pos.entry_price_usd - pos.entry_price_usd * (USD_SCALE - (pos.collateral_usd - pos.collateral_usd * liq_bps / 10000) * USD_SCALE / pos.size_usd) / USD_SCALE) * USD_SCALE = pos.entry_price_usd * (pos.collateral_usd - pos.collateral_usd * liq_bps / 10000) * USD_SCALE := by
      calc pos.size_usd * (pos.entry_price_usd - pos.entry_price_usd * (USD_SCALE - (pos.collateral_usd - pos.collateral_usd * liq_bps / 10000) * USD_SCALE / pos.size_usd) / USD_SCALE) * USD_SCALE
          = pos.size_usd * ((pos.entry_price_usd - pos.entry_price_usd * (USD_SCALE - (pos.collateral_usd - pos.collateral_usd * liq_bps / 10000) * USD_SCALE / pos.size_usd) / USD_SCALE) * USD_SCALE) := by ring
        _ = pos.size_usd * (pos.entry_price_usd * ((pos.collateral_usd - pos.collateral_usd * liq_bps / 10000) * USD_SCALE / pos.size_usd)) := by rw [hEPU]
        _ = pos.entry_price_usd * ((pos.collateral_usd - pos.collateral_usd * liq_bps / 10000) * USD_SCALE / pos.size_usd * pos.size_usd) := by ring
        _ = pos.entry_price_usd * ((pos.collateral_usd - pos.collateral_usd * liq_bps / 10000) * USD_SCALE) := by rw [hlrS]
        _ = pos.entry_price_usd * (pos.collateral_usd - pos.collateral_usd * liq_bps / 10000) * USD_SCALE := by ring
    have keyN : pos.size_usd * (pos.entry_price_usd - pos.entry_price_usd * (USD_SCALE - (pos.collateral_usd - pos.collateral_usd * liq_bps / 10000) * USD_SCALE / pos.size_usd) / USD_SCALE) = pos.entry_price_usd * (pos.collateral_usd - pos.collateral_usd * liq_bps / 10000) :=
      Nat.eq_of_mul_eq_mul_right husd hSEP
    have hcast : ((pos.entry_price_usd - pos.entry_price_usd * (USD_SCALE - (pos.collateral_usd - pos.collateral_usd * liq_bps / 10000) * USD_SCALE / pos.size_usd) / USD_SCALE : Nat) : Int) = (pos.entry_price_usd : Int) - ((pos.entry_price_usd * (USD_SCALE - (pos.collateral_usd - pos.collateral_usd * liq_bps / 10000) * USD_SCALE / pos.size_usd) / USD_SCALE : Nat) : Int) :=
      Nat.cast_sub hle
    have key : (pos.size_usd : Int) * (((pos.entry_price_usd * (USD_SCALE - (pos.collateral_usd - pos.collateral_usd * liq_bps / 10000) * USD_SCALE / pos.size_usd) / USD_SCALE : Nat) : Int) - (pos.entry_price_usd : Int))
        = (pos.entry_price_usd : Int) * (-(((pos.collateral_usd - pos.collateral_usd * liq_bps / 10000) : Nat) : Int)) := by
      have h31 := congrArg (fun n : Nat => (n : Int)) keyN
      push_cast at h31
      rw [hcast] at h31
      linear_combination -h31
    have hElaI : ((pos.entry_price_usd : Nat) : Int) * (((pos.collateral_usd - pos.collateral_usd * liq_bps / 10000) : Nat) : Int) ≤ 2 ^ 120 := by
      have := hEla
      exact_mod_cast this
    have hElaI0 : (0 : Int) ≤ ((pos.entry_price_usd : Nat) : Int) * (((pos.collateral_usd - pos.collateral_usd * liq_bps / 10000) : Nat) : Int) :=
      mul_nonneg (by positivity) (by positivity)
    have hpnl : calculate_pnl pos (calculate_liquidation_price pos liq_bps)
        = -(((pos.collateral_usd - pos.collateral_usd * liq_bps / 10000) : Nat) : Int) := by
      rw [hP]
      unfold calculate_pnl
      rw [if_neg hnz]
      simp only [hil, if_true]
      rw [u128AsI128_eq hPlt, u128AsI128_eq hElt, u128AsI128_eq hSlt]
      have hr1 : I128_MIN ≤ (pos.size_usd : Int) * (((pos.entry_price_usd * (USD_SCALE - (pos.collateral_usd - pos.collateral_usd * liq_bps / 10000) * USD_SCALE / pos.size_usd) / USD_SCALE : Nat) : Int) - (pos.entry_price_usd : Int)) := by
        rw [key, mul_neg]
        unfold I128_MIN
        omega
      have hr2 : (pos.size_usd : Int) * (((pos.entry_price_usd * (USD_SCALE - (pos.collateral_usd - pos.collateral_usd * liq_bps / 10000) * USD_SCALE / pos.size_usd) / USD_SCALE : Nat) : Int) - (pos.entry_price_usd : Int)) ≤ I128_MAX := by
        rw [key, mul_neg]
        unfold I128_MAX
        omega
      rw [satMulI_eq hr1 hr2, key]
      unfold divI
      exact Int.mul_tdiv_cancel_left _ (by exact_mod_cast hen.ne')
    refine ⟨?_, ?_, ?_⟩
    · rw [hpnl]
      omega
    · intro _
      rw [hP]
      exact hle
    · simp [hil]
  case false =>
    simp only [hil, Bool.false_eq_true, if_false] at hd3
    have hsum_le : USD_SCALE + (pos.collateral_usd - pos.collateral_usd * liq_bps / 10000) * USD_SCALE / pos.size_usd ≤ 2 * USD_SCALE := by omega
    have hbE : pos.entry_price_usd * (USD_SCALE + (pos.collateral_usd - pos.collateral_usd * liq_bps / 10000) * USD_SCALE / pos.size_usd) ≤ U128_MAX :=
      le_trans (Nat.mul_le_mul hen2.le hsum_le) (by decide)
    have hsa : satAdd USD_SCALE ((pos.collateral_usd - pos.collateral_usd * liq_bps / 10000) * USD_SCALE / pos.size_usd) = USD_SCALE + (pos.collateral_usd - pos.collateral_usd * liq_bps / 10000) * USD_SCALE / pos.size_usd :=
      satAdd_eq (le_trans hsum_le (by decide))
    have hP : calculate_liquidation_price pos liq_bps = pos.entry_price_usd * (USD_SCALE + (pos.collateral_usd - pos.collateral_usd * liq_bps / 10000) * USD_SCALE / pos.size_usd) / USD_SCALE := by
      unfold calculate_liquidation_price
      rw [if_neg hnz]
      simp only [hil, Bool.false_eq_true, if_false, satSub, hsm1, hsm2]
      rw [hsa, satMul_eq hbE]
    have hge : pos.entry_price_usd ≤ pos.entry_price_usd * (USD_SCALE + (pos.collateral_usd - pos.collateral_usd * liq_bps / 10000) * USD_SCALE / pos.size_usd) / USD_SCALE := by
      calc pos.entry_price_usd = pos.entry_price_usd * USD_SCALE / USD_SCALE := (Nat.mul_div_cancel _ husd).symm
        _ ≤ pos.entry_price_usd * (USD_SCALE + (pos.collateral_usd - pos.collateral_usd * liq_bps / 10000) * USD_SCALE / pos.size_usd) / USD_SCALE :=
            Nat.div_le_div_right (Nat.mul_le_mul_left _ (Nat.le_add_right _ _))
    have hPle : pos.entry_price_usd * (USD_SCALE + (pos.collateral_usd - pos.collateral_usd * liq_bps / 10000) * USD_SCALE / pos.size_usd) / USD_SCALE ≤ 2 * pos.entry_price_usd := by
      calc pos.entry_price_usd * (USD_SCALE + (pos.collateral_usd - pos.collateral_usd * liq_bps / 10000) * USD_SCALE / pos.size_usd) / USD_SCALE
          ≤ pos.entry_price_usd * (2 * USD_SCALE) / USD_SCALE :=
            Nat.div_le_div_right (Nat.mul_le_mul_left _ hsum_le)
        _ = 2 * pos.entry_price_usd := by
            rw [show pos.entry_price_usd * (2 * USD_SCALE) = 2 * pos.entry_price_usd * USD_SCALE by ring]
            exact Nat.mul_div_cancel _ husd
    have hPlt : pos.entry_price_usd * (USD_SCALE + (pos.collateral_usd - pos.collateral_usd * liq_bps / 10000) * USD_SCALE / pos.size_usd) / USD_SCALE < 2 ^ 127 := lt_of_le_of_lt hPle (by omega)
    have hPm : pos.entry_price_usd * (USD_SCALE + (pos.collateral_usd - pos.collateral_usd * liq_bps / 10000) * USD_SCALE / pos.size_usd) / USD_SCALE * USD_SCALE = pos.entry_price_usd * (USD_SCALE + (pos.collateral_usd - pos.collateral_usd * liq_bps / 10000) * USD_SCALE / pos.size_usd) :=
      Nat.div_mul_cancel hd3
    have hPEU : (pos.entry_price_usd * (USD_SCALE + (pos.collateral_usd - pos.collateral_usd * liq_bps / 10000) * USD_SCALE / pos.size_usd) / USD_SCALE - pos.entry_price_usd) * USD_SCALE = pos.entry_price_usd * ((pos.collateral_usd - pos.collateral_usd * liq_bps / 10000) * USD_SCALE / pos.size_usd) := by
      rw [Nat.sub_mul, hPm, Nat.mul_add]
      omega
    have hSEP : pos.size_usd * (pos.entry_price_usd * (USD_SCALE + (pos.collateral_usd - pos.collateral_usd * liq_bps / 10000) * USD_SCALE / pos.size_usd) / USD_SCALE - pos.entry_price_usd) * USD_SCALE = pos.entry_price_usd * (pos.collateral_usd - pos.collateral_usd * liq_bps / 10000) * USD_SCALE := by
      calc pos.size_usd * (pos.entry_price_usd * (USD_SCALE + (pos.collateral_usd - pos.collateral_usd * liq_bps / 10000) * USD_SCALE / pos.size_usd) / USD_SCALE - pos.entry_price_usd) * USD_SCALE
          = pos.size_usd * ((pos.entry_price_usd * (USD_SCALE + (pos.collateral_usd - pos.collateral_usd * liq_bps / 10000) * USD_SCALE / pos.size_usd) / USD_SCALE - pos.entry_price_usd) * USD_SCALE) := by ring
        _ = pos.size_usd * (pos.entry_price_usd * ((pos.collateral_usd - pos.collateral_usd * liq_bps / 10000) * USD_SCALE / pos.size_usd)) := by rw [hPEU]
        _ = pos.entry_price_usd * ((pos.collateral_usd - pos.collateral_usd * liq_bps / 10000) * USD_SCALE / pos.size_usd * pos.size_usd) := by ring
        _ = pos.entry_price_usd * ((pos.collateral_usd - pos.collateral_usd * liq_bps / 10000) * USD_SCALE) := by rw [hlrS]
        _ = pos.entry_price_usd * (pos.collateral_usd - pos.collateral_usd * liq_bps / 10000) * USD_SCALE := by ring
    have keyN : pos.size_usd * (pos.entry_price_usd * (USD_SCALE + (pos.collateral_usd - pos.collateral_usd * liq_bps / 10000) * USD_SCALE / pos.size_usd) / USD_SCALE - pos.entry_price_usd) = pos.entry_price_usd * (pos.collateral_usd - pos.collateral_usd * liq_bps / 10000) :=
      Nat.eq_of_mul_eq_mul_right husd hSEP
    have hcast : ((pos.entry_price_usd * (USD_SCALE + (pos.collateral_usd - pos.collateral_usd * liq_bps / 10000) * USD_SCALE / pos.size_usd) / USD_SCALE - pos.entry_price_usd : Nat) : Int) = ((pos.entry_price_usd * (USD_SCALE + (pos.collateral_usd - pos.collateral_usd * liq_bps / 10000) * USD_SCALE / pos.size_usd) / USD_SCALE : Nat) : Int) - (pos.entry_price_usd : Int) :=
      Nat.cast_sub hge
    have key : (pos.size_usd : Int) * ((pos.entry_price_usd : Int) - ((pos.entry_price_usd * (USD_SCALE + (pos.collateral_usd - pos.collateral_usd * liq_bps / 10000) * USD_SCALE / pos.size_usd) / USD_SCALE : Nat) : Int))
        = (pos.entry_price_usd : Int) * (-(((pos.collateral_usd - pos.collateral_usd * liq_bps / 10000) : Nat) : Int)) := by
      have h31 := congrArg (fun n : Nat => (n : Int)) keyN
      push_cast at h31
      rw [hcast] at h31
      linear_combination -h31
    have hElaI : ((pos.entry_price_usd : Nat) : Int) * (((pos.collateral_usd - pos.collateral_usd * liq_bps / 10000) : Nat) : Int) ≤ 2 ^ 120 := by
      have := hEla
      exact_mod_cast this
    have hElaI0 : (0 : Int) ≤ ((pos.entry_price_usd : Nat) : Int) * (((pos.collateral_usd - pos.collateral_usd * liq_bps / 10000) : Nat) : Int) :=
      mul_nonneg (by positivity) (by positivity)
    have hpnl : calculate_pnl pos (calculate_liquidation_price pos liq_bps)
        = -(((pos.collateral_usd - pos.collateral_usd * liq_bps / 10000) : Nat) : Int) := by
      rw [hP]
      unfold calculate_pnl
      rw [if_neg hnz]
      simp only [hil, Bool.false_eq_true, if_false]
      rw [u128AsI128_eq hPlt, u128AsI128_eq hElt, u128AsI128_eq hSlt]
      have hr1 : I128_MIN ≤ (pos.size_usd : Int) * ((pos.entry_price_usd : Int) - ((pos.entry_price_usd * (USD_SCALE + (pos.collateral_usd - pos.collateral_usd * liq_bps / 10000) * USD_SCALE / pos.size_usd) / USD_SCALE : Nat) : Int)) := by
        rw [key, mul_neg]
        unfold I128_MIN
        omega
      have hr2 : (pos.size_usd : Int) * ((pos.entry_price_usd : Int) - ((pos.entry_price_usd * (USD_SCALE + (pos.collateral_usd - pos.collateral_usd * liq_bps / 10000) * USD_SCALE / pos.size_usd) / USD_SCALE : Nat) : Int)) ≤ I128_MAX := by
        rw [key, mul_neg]
        unfold I128_MAX
        omega
      rw [satMulI_eq hr1 hr2, key]
      unfold divI
      exact Int.mul_tdiv_cancel_left _ (by exact_mod_cast hen.ne')
    refine ⟨?_, ?_, ?_⟩
    · rw [hpnl]
      omega
    · simp [hil]
    · intro _
      rw [hP]
      exact hge
/-- Witness for C7 at the spec's scenario position (long, `liq_bps = 8000`). -/
theorem c7_liquidation_price_inverts_pnl_witness :
    (posStd.collateral_usd : Int)
      + calculate_pnl posStd (calculate_liquidation_price posStd 8000)
      = ((posStd.collateral_usd * 8000 / 10000 : Nat) : Int)
  ∧ (posStd.is_long = true → calculate_liquidation_price posStd 8000 ≤ posStd.entry_price_usd)
  ∧ (posStd.is_long = false →
      posStd.entry_price_usd ≤ calculate_liquidation_price posStd 8000) :=
  c7_liquidation_price_inverts_pnl posStd 8000 (by decide) (by decide) (by decide)
    (by decide) (by decide) (by decide) (by decide) (by decide) (by decide) (by decide)

/-! ## C9 -/

/-- A token mentioned by no batch entry keeps its oracle records across the
`set_prices` loop. -/
theorem set_prices_loop_other (batch : List SignedPrice) (st : DexState) (now : Nat)
    (t : String) (h : ∀ sp ∈ batch, sp.token ≠ t) :
    (set_prices_loop st now batch).2.oracle.prices t = st.oracle.prices t
  ∧ (set_prices_loop st now batch).2.oracle.timestamps t = st.oracle.timestamps t
  ∧ (set_prices_loop st now batch).2.oracle.last_signer t = st.oracle.last_signer t := by
  induction batch generalizing st with
  | nil => exact ⟨rfl, rfl, rfl⟩
  | cons sp rest ih =>
    have hts : t ≠ sp.token := fun hh => (h sp (List.mem_cons_self _ _)) hh.symm
    have hrest : ∀ sp2 ∈ rest, sp2.token ≠ t := fun sp2 hm => h sp2 (List.mem_cons_of_mem _ hm)
    unfold set_prices_loop
    split
    · exact ⟨rfl, rfl, rfl⟩
    · split
      · exact ⟨rfl, rfl, rfl⟩
      · refine ⟨?_, ?_, ?_⟩
        · rw [(ih (oracle_insert st sp) hrest).1]
          simp [oracle_insert, upd, hts]
        · rw [(ih (oracle_insert st sp) hrest).2.1]
          simp [oracle_insert, upd, hts]
        · rw [(ih (oracle_insert st sp) hrest).2.2]
          simp [oracle_insert, upd, hts]

/-- The `set_prices` loop: never a signature error, and on an all-fresh batch
it succeeds and stores every entry (tokens assumed distinct). -/
theorem set_prices_loop_spec (batch : List SignedPrice) (st : DexState) (now : Nat) :
    (set_prices_loop st now batch).1 ≠ .err .InvalidOracleSignature
  ∧ ((∀ sp ∈ batch, satSub now sp.timestamp ≤ st.oracle.config.max_age_seconds) →
      (set_prices_loop st now batch).1 = .ok ()
      ∧ ((batch.map (fun sp => sp.token)).Nodup → ∀ sp ∈ batch,
          (set_prices_loop st now batch).2.oracle.prices sp.token = some sp.price
          ∧ (set_prices_loop st now batch).2.oracle.timestamps sp.token = some sp.timestamp
          ∧ (set_prices_loop st now batch).2.oracle.last_signer sp.token = some sp.signer)) := by
  induction batch generalizing st with
  | nil =>
    constructor
    · unfold set_prices_loop
      simp
    · intro _
      constructor
      · unfold set_prices_loop
        rfl
      · intro _ sp hmem
        exact absurd hmem (by simp)
  | cons sp rest ih =>
    constructor
    · unfold set_prices_loop
      split
      · simp
      · split
        · rename_i hver
          simp [verify_signature] at hver
        · exact (ih (oracle_insert st sp)).1
    · intro hfresh
      have hsp_fresh : ¬(satSub now sp.timestamp > st.oracle.config.max_age_seconds) := by
        have := hfresh sp (List.mem_cons_self _ _)
        omega
      unfold set_prices_loop
      rw [if_neg hsp_fresh]
      rw [if_neg (by simp [verify_signature])]
      have hrest_fresh : ∀ sp2 ∈ rest,
          satSub now sp2.timestamp ≤ st.oracle.config.max_age_seconds :=
        fun sp2 hm => hfresh sp2 (List.mem_cons_of_mem _ hm)
      obtain ⟨hok, hstore⟩ := (ih (oracle_insert st sp)).2 hrest_fresh
      refine ⟨hok, ?_⟩
      intro hnodup sp2 hmem
      rw [List.map_cons] at hnodup
      have hnd := List.nodup_cons.mp hnodup
      rcases List.mem_cons.mp hmem with heq | hmemr
      · subst heq
        have hnone : ∀ sp3 ∈ rest, sp3.token ≠ sp2.token := by
          intro sp3 hm3 htok
          have hmm : sp3.token ∈ rest.map (fun x => x.token) :=
            List.mem_map_of_mem (fun x => x.token) hm3
          rw [htok] at hmm
          exact hnd.1 hmm
        obtain ⟨ha, hb, hc⟩ := set_prices_loop_other rest (oracle_insert st sp2) now
          sp2.token hnone
        rw [ha, hb, hc]
        simp [oracle_insert, upd]
      · exact hstore hnd.2 sp2 hmemr

/-- C9: `set_prices` never returns `InvalidOracleSignature` (the verification
stub accepts every signature and signer), and every batch whose entries all
carry a fresh timestamp succeeds and stores each entry's price, timestamp
and signer. -/
theorem c9_set_prices_accepts_any_signature :
    (∀ (st : DexState) (batch : List SignedPrice) (now : Nat),
      (set_prices st batch now).1 ≠ .err .InvalidOracleSignature)
  ∧ (∀ (st : DexState) (batch : List SignedPrice) (now : Nat),
      (∀ sp ∈ batch, satSub now sp.timestamp ≤ st.oracle.config.max_age_seconds) →
      (set_prices st batch now).1 = .ok ()
      ∧ ((batch.map (fun sp => sp.token)).Nodup → ∀ sp ∈ batch,
          (set_prices st batch now).2.oracle.prices sp.token = some sp.price
          ∧ (set_prices st batch now).2.oracle.timestamps sp.token = some sp.timestamp
          ∧ (set_prices st batch now).2.oracle.last_signer sp.token = some sp.signer)) := by
  constructor
  · intro st batch now
    exact (set_prices_loop_spec batch st now).1
  · intro st batch now hfresh
    exact (set_prices_loop_spec batch st now).2 hfresh

/-- A signed price whose signature bytes are garbage and whose claimed
signer is arbitrary. -/
def spW : SignedPrice :=
  { token := "X", price := { min := 5, max := 7 }, timestamp := 95, signer := 42,
    signature := [222, 173, 190, 239] }

/-- Witness for C9: the garbage-signed batch is accepted and stored. -/
theorem c9_set_prices_accepts_any_signature_witness :
    (set_prices stBase [spW] 100).1 = .ok ()
  ∧ (set_prices stBase [spW] 100).2.oracle.prices "X" = some { min := 5, max := 7 }
  ∧ (set_prices stBase [spW] 100).2.oracle.last_signer "X" = some 42 := by
  have h := c9_set_prices_accepts_any_signature.2 stBase [spW] 100
    (by intro sp hm; rw [List.mem_singleton.mp hm]; decide)
  have h2 := h.2 (by simp) spW (by simp)
  exact ⟨h.1, h2.1, h2.2.2⟩

/-! ## C2: the funding zero-sum invariant -/

/-- The funding part of the pool invariant: the two accumulated funding
indices cancel, and the long index is bounded by the last accrual timestamp
(which itself fits in `u64`) — the bound that keeps the saturating `i128`
arithmetic of `accrue_pool` exact. -/
def PoolInv (p : PoolAmounts) : Prop :=
  p.accumulated_funding_long_per_usd + p.accumulated_funding_short_per_usd = 0
  ∧ p.accumulated_funding_long_per_usd.natAbs ≤ p.last_funding_update
  ∧ p.last_funding_update < 2 ^ 64

def Inv (st : DexState) : Prop :=
  ∀ m p, st.pool_amounts m = some p → PoolInv p

theorem PoolInv_default : PoolInv PoolAmounts.default := by
  refine ⟨rfl, ?_, ?_⟩ <;> simp [PoolAmounts.default]

theorem Inv_init (admin : ActorId) : Inv (initState admin) := by
  intro m p h
  simp [initState] at h

/-- Two pools with the same funding fields. -/
def FundingEq (p q : PoolAmounts) : Prop :=
  q.accumulated_funding_long_per_usd = p.accumulated_funding_long_per_usd
  ∧ q.accumulated_funding_short_per_usd = p.accumulated_funding_short_per_usd
  ∧ q.last_funding_update = p.last_funding_update

theorem FundingEq.refl (p : PoolAmounts) : FundingEq p p := ⟨rfl, rfl, rfl⟩

theorem FundingEq.trans {p q r : PoolAmounts} (h1 : FundingEq p q) (h2 : FundingEq q r) :
    FundingEq p r := by
  obtain ⟨a1, b1, c1⟩ := h1
  obtain ⟨a2, b2, c2⟩ := h2
  exact ⟨a2.trans a1, b2.trans b1, c2.trans c1⟩

theorem PoolInv_of_FundingEq {p q : PoolAmounts} (h : FundingEq p q) (hp : PoolInv p) :
    PoolInv q := by
  obtain ⟨a, b, c⟩ := h
  exact ⟨by rw [a, b]; exact hp.1, by rw [a, c]; exact hp.2.1, by rw [c]; exact hp.2.2⟩

theorem Inv_of_pools_eq {st st' : DexState} (h : st'.pool_amounts = st.pool_amounts)
    (hi : Inv st) : Inv st' := by
  intro m p hm
  exact hi m p (h ▸ hm)

theorem Inv_upd {st : DexState} {m : String} {p : PoolAmounts} (hi : Inv st) (hp : PoolInv p) :
    Inv { st with pool_amounts := upd st.pool_amounts m (some p) } := by
  intro m' p' hm
  simp only [] at hm
  unfold upd at hm
  split at hm
  · cases hm
    exact hp
  · exact hi m' p' hm

theorem Inv_upd_none {st : DexState} {m : String} (hi : Inv st) :
    Inv { st with pool_amounts := upd st.pool_amounts m none } := by
  intro m' p' hm
  simp only [] at hm
  unfold upd at hm
  split at hm
  · cases hm
  · exact hi m' p' hm

theorem PoolInv_getD {st : DexState} {m : String} (hi : Inv st) :
    PoolInv ((st.pool_amounts m).getD PoolAmounts.default) := by
  cases h : st.pool_amounts m with
  | none => exact PoolInv_default
  | some p => exact hi m p h

/-- The funding-rate magnitude is bounded by the elapsed time: the source
caps the rate at 10 bps per hour and converts a basis point to 100 micro-USD
per USD, and `1000 * dt / 3600 ≤ dt`. -/
theorem funding_rate_micro_bound (pool : PoolAmounts) (cfg : MarketConfig) (dt : Nat)
    (hdt : dt < 2 ^ 64) (r : Int) (h : funding_rate_micro pool cfg dt = .ok r) :
    r.natAbs ≤ dt := by
  unfold funding_rate_micro at h
  simp only [] at h
  split at h
  · simp only [Res.ok.injEq] at h
    omega
  · simp only [Res.ok.injEq] at h
    have hm10 : satMulI 10 (dt : Int) = 10 * dt := by
      unfold satMulI
      refine clampI_eq ?_ ?_
      · simp only [I128_MIN]
        omega
      · simp only [I128_MAX]
        omega
    rw [hm10] at h
    have htd : divI (10 * (dt : Int)) 3600 = (10 * (dt : Int)) / 3600 := by
      unfold divI
      exact Int.tdiv_eq_ediv (by positivity) (by norm_num)
    rw [htd] at h
    have hcap0 : 0 ≤ (10 * (dt : Int)) / 3600 := by positivity
    have hcap : ((10 * (dt : Int)) / 3600) * 100 ≤ (dt : Int) := by omega
    rw [← h]
    set ra := funding_rate_annual_bps pool cfg dt with hradef
    set cap : Int := (10 * (dt : Int)) / 3600 with hcapdef
    have hrc1 : -cap ≤ min (max ra (-cap)) cap := by omega
    have hrc2 : min (max ra (-cap)) cap ≤ cap := min_le_right _ _
    have h1 : -(dt : Int) ≤ min (max ra (-cap)) cap * 100 := by nlinarith
    have h2 : min (max ra (-cap)) cap * 100 ≤ (dt : Int) := by nlinarith
    unfold satMulI clampI
    simp only [I128_MIN, I128_MAX]
    omega

/-- `accrue_pool` preserves the funding invariant, and in the saturating
arithmetic the two indices move by exactly opposite amounts. -/
theorem accrue_pool_pure_spec (pool : PoolAmounts) (cfg : MarketConfig) (now : Nat)
    (hp : PoolInv pool) (hnow : now < 2 ^ 64) :
    PoolInv (accrue_pool_pure pool cfg now)
  ∧ (accrue_pool_pure pool cfg now).accumulated_funding_long_per_usd
      - pool.accumulated_funding_long_per_usd
    = -((accrue_pool_pure pool cfg now).accumulated_funding_short_per_usd
      - pool.accumulated_funding_short_per_usd) := by
  unfold accrue_pool_pure
  simp only []
  split
  · exact ⟨hp, by omega⟩
  · rename_i hdt
    split
    · exact ⟨hp, by omega⟩
    · rename_i r hr
      have hdt0 : satSub now pool.last_funding_update = now - pool.last_funding_update := rfl
      have hdtlt : satSub now pool.last_funding_update < 2 ^ 64 := by
        rw [hdt0]
        omega
      have hrb := funding_rate_micro_bound pool cfg _ hdtlt r hr
      rw [hdt0] at hrb
      obtain ⟨hsum, habs, hlast⟩ := hp
      have hlastnow : pool.last_funding_update + satSub now pool.last_funding_update = now := by
        have hdt' : satSub now pool.last_funding_update = now - pool.last_funding_update := rfl
        rw [hdt'] at hdt ⊢
        omega
      have hrb' : r.natAbs ≤ now - pool.last_funding_update := hrb
      have haddI : satAddI pool.accumulated_funding_long_per_usd r
          = pool.accumulated_funding_long_per_usd + r := by
        unfold satAddI
        refine clampI_eq ?_ ?_
        · simp only [I128_MIN]
          omega
        · simp only [I128_MAX]
          omega
      have hsubI : satSubI pool.accumulated_funding_short_per_usd r
          = pool.accumulated_funding_short_per_usd - r := by
        unfold satSubI
        refine clampI_eq ?_ ?_
        · simp only [I128_MIN]
          omega
        · simp only [I128_MAX]
          omega
      refine ⟨⟨?_, ?_, ?_⟩, ?_⟩ <;> simp only [haddI, hsubI]
      · omega
      · omega
      · exact hnow
      · omega

/-- `accrue_pool` (state level) preserves the invariant. -/
theorem accrue_pool_Inv (st : DexState) (market : String) (now : Nat)
    (hi : Inv st) (hnow : now < 2 ^ 64) : Inv (accrue_pool st market now).2 := by
  unfold accrue_pool
  split
  · exact hi
  · rename_i cfg hcfg
    split
    · exact hi
    · rename_i pool hpool
      simp only []
      exact Inv_upd hi (accrue_pool_pure_spec pool cfg now (hi _ _ hpool) hnow).1

theorem settle_borrow_funding_eq (pos : Position) (pool : PoolAmounts) (cfg : MarketConfig)
    (now : Nat) (fees : SettledFees) :
    FundingEq pool (settle_borrow_and_apply pos pool cfg now fees).2.2 := by
  unfold settle_borrow_and_apply
  simp only []
  repeat' split
  all_goals simp_all [FundingEq]

theorem settle_pure_funding_eq (pos : Position) (pool : PoolAmounts) (cfg : MarketConfig)
    (now : Nat) : FundingEq pool (settle_position_fees_pure pos pool cfg now).2.2 := by
  unfold settle_position_fees_pure
  simp only []
  repeat' split
  all_goals
    first
    | exact FundingEq.refl _
    | (refine FundingEq.trans ?_ (settle_borrow_funding_eq _ _ _ _ _)
       simp [FundingEq]
       done)
    | (simp [FundingEq]
       done)

theorem settle_state_Inv (st : DexState) (pos : Position) (market : String) (now : Nat)
    (hi : Inv st) : Inv (settle_position_fees st pos market now).2.2 := by
  unfold settle_position_fees
  split
  · exact hi
  · rename_i cfg hcfg
    split
    · exact hi
    · rename_i pool hpool
      simp only []
      intro m' p' hm
      simp only [upd] at hm
      split at hm
      · cases hm
        exact PoolInv_of_FundingEq (settle_pure_funding_eq pos pool cfg now) (hi _ _ hpool)
      · exact hi m' p' hm

theorem create_market_Inv (st : DexState) (caller : ActorId) (mid it lt stk : String)
    (mtk : ActorId) (config : MarketConfig) (hi : Inv st) :
    Inv (create_market st caller mid it lt stk mtk config).2 := by
  unfold create_market
  split
  · exact hi
  split
  · exact hi
  simp only []
  intro m' p' hm
  simp only [upd] at hm
  split at hm
  · cases hm
    exact PoolInv_default
  · exact hi m' p' hm

theorem set_market_config_Inv (st : DexState) (caller : ActorId) (mid : String)
    (config : MarketConfig) (hi : Inv st) :
    Inv (set_market_config st caller mid config).2 := by
  unfold set_market_config
  split
  · exact hi
  split
  · exact hi
  intro m' p' hm
  exact hi m' p' hm

theorem oracle_set_config_Inv (st : DexState) (caller : ActorId) (cfg : OracleConfig)
    (hi : Inv st) : Inv (oracle_set_config st caller cfg).2 := by
  unfold oracle_set_config
  split
  · exact hi
  · intro m' p' hm
    exact hi m' p' hm

theorem wallet_deposit_Inv (st : DexState) (caller : ActorId) (amount : Nat) (hi : Inv st) :
    Inv (wallet_deposit st caller amount).2 := by
  unfold wallet_deposit
  split
  · exact hi
  · intro m' p' hm
    exact hi m' p' hm

theorem wallet_withdraw_Inv (st : DexState) (caller : ActorId) (amount : Nat) (hi : Inv st) :
    Inv (wallet_withdraw st caller amount).2 := by
  unfold wallet_withdraw
  split
  · exact hi
  split
  · exact hi
  split
  · exact hi
  · intro m' p' hm
    exact hi m' p' hm

theorem set_prices_loop_Inv (batch : List SignedPrice) (st : DexState) (now : Nat)
    (hi : Inv st) : Inv (set_prices_loop st now batch).2 := by
  induction batch generalizing st with
  | nil => exact hi
  | cons sp rest ih =>
    unfold set_prices_loop
    split
    · exact hi
    split
    · exact hi
    · exact ih (oracle_insert st sp) (fun m' p' hm => hi m' p' hm)

theorem set_prices_Inv (st : DexState) (batch : List SignedPrice) (now : Nat) (hi : Inv st) :
    Inv (set_prices st batch now).2 :=
  set_prices_loop_Inv batch st now hi

theorem update_order_Inv (st : DexState) (caller : ActorId) (key : RequestKey)
    (params : UpdateOrderParams) (now height : Nat) (hi : Inv st) :
    Inv (update_order st caller key params now height).2 := by
  unfold update_order
  split
  · exact hi
  split
  · exact hi
  split
  · exact hi
  · intro m' p' hm
    exact hi m' p' hm

theorem cancel_order_Inv (st : DexState) (caller : ActorId) (key : RequestKey)
    (now height : Nat) (hi : Inv st) : Inv (cancel_order st caller key now height).2 := by
  unfold cancel_order
  split
  · exact hi
  split
  · exact hi
  split
  · exact hi
  · intro m' p' hm
    exact hi m' p' hm

theorem save_order_Inv (st : DexState) (caller : ActorId) (params : CreateOrderParams)
    (now height : Nat) (hi : Inv st) : Inv (save_order st caller params now height).2 := by
  unfold save_order
  intro m' p' hm
  exact hi m' p' hm

theorem FundingEq_pool_with_new_oi (pool : PoolAmounts) (il : Bool) (noi : Nat) :
    FundingEq pool (pool_with_new_oi pool il noi) := by
  unfold pool_with_new_oi
  split <;> exact ⟨rfl, rfl, rfl⟩

theorem FundingEq_pool_sub_oi (pool : PoolAmounts) (il : Bool) (amt : Nat) :
    FundingEq pool (pool_sub_oi pool il amt) := by
  unfold pool_sub_oi
  split <;> exact ⟨rfl, rfl, rfl⟩

theorem FundingEq_pool_apply_pnl (pool : PoolAmounts) (pnl : Int) :
    FundingEq pool (pool_apply_pnl pool pnl) := by
  unfold pool_apply_pnl
  split
  · exact ⟨rfl, rfl, rfl⟩
  split <;> exact ⟨rfl, rfl, rfl⟩

/-- The combined pool update of `decrease_position` and `liquidate_position`
keeps the funding fields. -/
theorem FundingEq_pool_close (pool : PoolAmounts) (il : Bool) (amt : Nat) (pnl : Int) :
    FundingEq pool (pool_apply_pnl (pool_sub_oi pool il amt) pnl) :=
  FundingEq.trans (FundingEq_pool_sub_oi pool il amt) (FundingEq_pool_apply_pnl _ pnl)

theorem set_pool_Inv {st : DexState} {market : String} {pool : PoolAmounts}
    (hi : Inv st) (hp : PoolInv pool) : Inv (set_pool st market pool) := by
  unfold set_pool
  exact Inv_upd hi hp

theorem set_balance_Inv {st : DexState} {account : ActorId} {bal : Nat}
    (hi : Inv st) : Inv (set_balance st account bal) :=
  fun m p h => hi m p h

theorem insert_position_Inv {st : DexState} {key : PositionKey} {pos : Position}
    {isnew : Bool} {account : ActorId} (hi : Inv st) :
    Inv (insert_position st key pos isnew account) := by
  unfold insert_position
  cases isnew <;> exact fun m p h => hi m p h

theorem increase_position_commit_Inv (st : DexState) (key : PositionKey) (pos : Position)
    (isnew : Bool) (account : ActorId) (market : String) (il : Bool)
    (sd cd px height : Nat) (cfg : MarketConfig) (tc : Nat) (hi : Inv st) :
    Inv (increase_position_commit st key pos isnew account market il sd cd px height
      cfg tc).2 := by
  unfold increase_position_commit
  simp only []
  have h0 : PoolInv ((st.pool_amounts market).getD PoolAmounts.default) := PoolInv_getD hi
  have h1 : Inv (set_pool st market ((st.pool_amounts market).getD PoolAmounts.default)) :=
    set_pool_Inv hi h0
  repeat' split
  all_goals
    first
    | exact h1
    | exact set_balance_Inv (set_pool_Inv h1
        (PoolInv_of_FundingEq (FundingEq_pool_with_new_oi _ _ _) h0))
    | exact set_balance_Inv (set_balance_Inv (set_pool_Inv h1
        (PoolInv_of_FundingEq (FundingEq_pool_with_new_oi _ _ _) h0)))
    | exact insert_position_Inv (set_balance_Inv (set_balance_Inv (set_pool_Inv h1
        (PoolInv_of_FundingEq (FundingEq_pool_with_new_oi _ _ _) h0))))

theorem increase_position_Inv (st : DexState) (account : ActorId)
    (market collateral_token : String) (il : Bool) (sd cd px now height : Nat)
    (hi : Inv st) :
    Inv (increase_position st account market collateral_token il sd cd px now height).2 := by
  unfold increase_position
  simp only []
  split
  · exact hi
  split
  · exact hi
  split
  · rename_i existing hexisting
    have hst : Inv (settle_position_fees st existing market now).2.2 :=
      settle_state_Inv st existing market now hi
    split
    · exact hst
    · exact increase_position_commit_Inv _ _ _ _ _ _ _ _ _ _ _ _ _ hst
  · exact increase_position_commit_Inv _ _ _ _ _ _ _ _ _ _ _ _ _ hi

theorem decrease_position_Inv (st : DexState) (account : ActorId)
    (market collateral_token : String) (il : Bool) (sd cd px now height : Nat)
    (hi : Inv st) :
    Inv (decrease_position st account market collateral_token il sd cd px now height).2 := by
  unfold decrease_position
  simp only []
  split
  · exact hi
  split
  · exact hi
  rename_i pos0 hpos0
  have hst : Inv (settle_position_fees st pos0 market now).2.2 :=
    settle_state_Inv st pos0 market now hi
  repeat' split
  all_goals
    first
    | exact hst
    | (intro m' p' hm
       simp only [] at hm
       unfold upd at hm
       split at hm
       · cases hm
         exact PoolInv_of_FundingEq (FundingEq_pool_close _ _ _ _) (PoolInv_getD hst)
       · exact hst m' p' hm)

theorem liquidate_position_Inv (st : DexState) (liquidator : ActorId)
    (position_key : PositionKey) (px fee_bps now : Nat) (hi : Inv st) :
    Inv (liquidate_position st liquidator position_key px fee_bps now).2 := by
  unfold liquidate_position
  simp only []
  split
  · exact hi
  rename_i pos0 hpos0
  have hst : Inv (settle_position_fees st pos0 pos0.market now).2.2 :=
    settle_state_Inv st pos0 pos0.market now hi
  repeat' split
  all_goals
    first
    | exact hst
    | (intro m' p' hm
       simp only [] at hm
       unfold upd at hm
       split at hm
       · cases hm
         exact PoolInv_of_FundingEq (FundingEq_pool_close _ _ _ _) (PoolInv_getD hst)
       · exact hst m' p' hm)

theorem add_liquidity_commit_Inv (st : DexState) (lp : ActorId) (market_id : String)
    (pool : PoolAmounts) (mt : MarketTokenInfo) (lu su ma mm : Nat)
    (hi : Inv st) (hp : PoolInv pool) :
    Inv (add_liquidity_commit st lp market_id pool mt lu su ma mm).2 := by
  unfold add_liquidity_commit
  simp only []
  split
  · exact hi
  · intro m' p' hm
    simp only [] at hm
    unfold upd at hm
    split at hm
    · cases hm
      exact PoolInv_of_FundingEq ⟨rfl, rfl, rfl⟩ hp
    · exact hi m' p' hm

theorem add_liquidity_Inv (st : DexState) (lp : ActorId) (market_id : String)
    (la sa mm : Nat) (hi : Inv st) :
    Inv (add_liquidity st lp market_id la sa mm).2 := by
  unfold add_liquidity
  simp only []
  split
  · exact hi
  split
  · exact hi
  split
  · exact hi
  split
  · exact hi
  rename_i pool hpool
  split
  · exact hi
  split
  · exact add_liquidity_commit_Inv _ _ _ _ _ _ _ _ _ hi (hi _ _ hpool)
  split
  · exact hi
  · exact add_liquidity_commit_Inv _ _ _ _ _ _ _ _ _ hi (hi _ _ hpool)

theorem remove_liquidity_Inv (st : DexState) (lp : ActorId) (market_id : String)
    (amt mlo mso : Nat) (hi : Inv st) :
    Inv (remove_liquidity st lp market_id amt mlo mso).2 := by
  unfold remove_liquidity
  simp only []
  split
  · exact hi
  split
  · exact hi
  split
  · exact hi
  split
  · exact hi
  rename_i pool hpool
  split
  · exact hi
  split
  · exact hi
  split
  · exact hi
  split
  · exact hi
  split
  · intro m' p' hm
    simp only [] at hm
    unfold upd at hm
    split at hm
    · cases hm
    · exact hi m' p' hm
  split
  · intro m' p' hm
    simp only [] at hm
    unfold upd at hm
    split at hm
    · cases hm
    · exact hi m' p' hm
  · intro m' p' hm
    simp only [] at hm
    unfold upd at hm
    split at hm
    · cases hm
      refine PoolInv_of_FundingEq ?_ (hi _ _ hpool)
      exact ⟨rfl, rfl, rfl⟩
    · exact hi m' p' hm

theorem execute_position_change_Inv (st : DexState) (caller : ActorId)
    (params : CreateOrderParams) (price now height : Nat) (hi : Inv st) :
    Inv (execute_position_change st caller params price now height).2 := by
  unfold execute_position_change
  simp only []
  cases params.order_type <;>
    first
    | exact hi
    | exact increase_position_Inv _ _ _ _ _ _ _ _ _ _ hi
    | exact decrease_position_Inv _ _ _ _ _ _ _ _ _ _ hi

theorem execute_order_now_Inv (st : DexState) (caller : ActorId)
    (params : CreateOrderParams) (ep now height : Nat) (hi : Inv st) :
    Inv (execute_order_now st caller params ep now height).2 := by
  unfold execute_order_now
  have h := execute_position_change_Inv st caller params ep now height hi
  split
  · exact hi
  split
  · rename_i e st' heq
    rw [heq] at h
    exact h
  · rename_i pk st' heq
    rw [heq] at h
    exact h

theorem create_order_Inv (st : DexState) (caller : ActorId) (params : CreateOrderParams)
    (now height : Nat) (hi : Inv st) :
    Inv (create_order st caller params now height).2 := by
  unfold create_order
  split
  · exact hi
  split
  · exact hi
  split
  · exact hi
  split
  · exact hi
  split
  · exact hi
  split
  · exact hi
  split <;>
    first
    | exact hi
    | exact execute_order_now_Inv _ _ _ _ _ _ hi
    | (split
       · exact execute_order_now_Inv _ _ _ _ _ _ hi
       · exact save_order_Inv _ _ _ _ _ hi)

theorem execute_saved_order_Inv (st : DexState) (executor : ActorId) (key : RequestKey)
    (now height : Nat) (hi : Inv st) :
    Inv (execute_saved_order st executor key now height).2 := by
  unfold execute_saved_order
  simp only []
  split
  · exact hi
  rename_i order horder
  split
  · exact hi
  split
  · exact hi
  rename_i mid hmid
  split
  · exact hi
  split
  · exact hi
  split
  · exact hi
  split
  · exact hi
  have h := execute_position_change_Inv st order.account (order_to_params order) mid
    now height hi
  split
  · rename_i e st' heq
    rw [heq] at h
    exact h
  · rename_i pk st' heq
    rw [heq] at h
    split
    · exact h
    · exact fun m p hm => h m p hm

/-- One externally invokable operation of the program, as a relation between
the pre- and post-states.  The `accruePool` step carries the `u64` bound on
the block timestamp argument of `RiskModule::accrue_pool`. -/
inductive Step : DexState → DexState → Prop where
  | createMarket (st : DexState) (caller : ActorId) (mid it lt stk : String)
      (mtk : ActorId) (config : MarketConfig) :
      Step st (create_market st caller mid it lt stk mtk config).2
  | setMarketConfig (st : DexState) (caller : ActorId) (mid : String)
      (config : MarketConfig) :
      Step st (set_market_config st caller mid config).2
  | addLiquidity (st : DexState) (lp : ActorId) (mid : String) (la sa mm : Nat) :
      Step st (add_liquidity st lp mid la sa mm).2
  | removeLiquidity (st : DexState) (lp : ActorId) (mid : String) (amt mlo mso : Nat) :
      Step st (remove_liquidity st lp mid amt mlo mso).2
  | increasePosition (st : DexState) (account : ActorId) (market ct : String) (il : Bool)
      (sd cd px now height : Nat) :
      Step st (increase_position st account market ct il sd cd px now height).2
  | decreasePosition (st : DexState) (account : ActorId) (market ct : String) (il : Bool)
      (sd cd px now height : Nat) :
      Step st (decrease_position st account market ct il sd cd px now height).2
  | liquidatePosition (st : DexState) (liquidator : ActorId) (k : PositionKey)
      (px fee_bps now : Nat) :
      Step st (liquidate_position st liquidator k px fee_bps now).2
  | createOrder (st : DexState) (caller : ActorId) (params : CreateOrderParams)
      (now height : Nat) :
      Step st (create_order st caller params now height).2
  | updateOrder (st : DexState) (caller : ActorId) (key : RequestKey)
      (params : UpdateOrderParams) (now height : Nat) :
      Step st (update_order st caller key params now height).2
  | cancelOrder (st : DexState) (caller : ActorId) (key : RequestKey) (now height : Nat) :
      Step st (cancel_order st caller key now height).2
  | executeSavedOrder (st : DexState) (executor : ActorId) (key : RequestKey)
      (now height : Nat) :
      Step st (execute_saved_order st executor key now height).2
  | setPrices (st : DexState) (batch : List SignedPrice) (now : Nat) :
      Step st (set_prices st batch now).2
  | oracleSetConfig (st : DexState) (caller : ActorId) (cfg : OracleConfig) :
      Step st (oracle_set_config st caller cfg).2
  | walletDeposit (st : DexState) (caller : ActorId) (amount : Nat) :
      Step st (wallet_deposit st caller amount).2
  | walletWithdraw (st : DexState) (caller : ActorId) (amount : Nat) :
      Step st (wallet_withdraw st caller amount).2
  | accruePool (st : DexState) (market : String) (now : Nat) (h : now < 2 ^ 64) :
      Step st (accrue_pool st market now).2

/-- States reachable from a fresh program state by any sequence of
operations. -/
inductive Reachable : DexState → Prop where
  | init (admin : ActorId) : Reachable (initState admin)
  | step {st st' : DexState} (h : Reachable st) (hs : Step st st') : Reachable st'

/-- The funding invariant holds in every reachable state. -/
theorem Inv_reachable {st : DexState} (h : Reachable st) : Inv st := by
  induction h with
  | init admin => exact Inv_init admin
  | step h hs ih =>
    cases hs with
    | createMarket caller mid it lt stk mtk config =>
      exact create_market_Inv _ caller mid it lt stk mtk config ih
    | setMarketConfig caller mid config =>
      exact set_market_config_Inv _ caller mid config ih
    | addLiquidity lp mid la sa mm =>
      exact add_liquidity_Inv _ lp mid la sa mm ih
    | removeLiquidity lp mid amt mlo mso =>
      exact remove_liquidity_Inv _ lp mid amt mlo mso ih
    | increasePosition account market ct il sd cd px now height =>
      exact increase_position_Inv _ account market ct il sd cd px now height ih
    | decreasePosition account market ct il sd cd px now height =>
      exact decrease_position_Inv _ account market ct il sd cd px now height ih
    | liquidatePosition liquidator k px fee_bps now =>
      exact liquidate_position_Inv _ liquidator k px fee_bps now ih
    | createOrder caller params now height =>
      exact create_order_Inv _ caller params now height ih
    | updateOrder caller key params now height =>
      exact update_order_Inv _ caller key params now height ih
    | cancelOrder caller key now height =>
      exact cancel_order_Inv _ caller key now height ih
    | executeSavedOrder executor key now height =>
      exact execute_saved_order_Inv _ executor key now height ih
    | setPrices batch now =>
      exact set_prices_Inv _ batch now ih
    | oracleSetConfig caller cfg =>
      exact oracle_set_config_Inv _ caller cfg ih
    | walletDeposit caller amount =>
      exact wallet_deposit_Inv _ caller amount ih
    | walletWithdraw caller amount =>
      exact wallet_withdraw_Inv _ caller amount ih
    | accruePool market now hn =>
      exact accrue_pool_Inv _ market now ih hn

/-- C2: in every state reachable by any sequence of operations from the
initial state, each pool's `accumulated_funding_long_per_usd` and
`accumulated_funding_short_per_usd` sum to zero; and any `accrue_pool` call
on such a pool (at a `u64` timestamp) moves the two indices by equal and
opposite amounts. -/
theorem c2_funding_indices_zero_sum (st : DexState) (hr : Reachable st) :
    (∀ m p, st.pool_amounts m = some p →
       p.accumulated_funding_long_per_usd + p.accumulated_funding_short_per_usd = 0)
  ∧ (∀ m p cfg now, st.pool_amounts m = some p → now < 2 ^ 64 →
       (accrue_pool_pure p cfg now).accumulated_funding_long_per_usd
           - p.accumulated_funding_long_per_usd
         = -((accrue_pool_pure p cfg now).accumulated_funding_short_per_usd
           - p.accumulated_funding_short_per_usd)) := by
  have hi := Inv_reachable hr
  constructor
  · intro m p hm
    exact (hi m p hm).1
  · intro m p cfg now hm hnow
    exact (accrue_pool_pure_spec p cfg now (hi m p hm) hnow).2

/-- The reachable state used by the C2 witness: the admin creates market
`"W"` in the fresh state. -/
def stW : DexState := (create_market (initState 1) 1 "W" "I" "L" "S" 2 cfgStd).2

/-- Witness for C2: the market just created in `stW` carries a pool whose
funding indices sum to zero. -/
theorem c2_funding_indices_zero_sum_witness :
    ((stW.pool_amounts "W").getD PoolAmounts.default).accumulated_funding_long_per_usd
      + ((stW.pool_amounts "W").getD PoolAmounts.default).accumulated_funding_short_per_usd
      = 0 :=
  (c2_funding_indices_zero_sum stW
      (Reachable.step (Reachable.init 1)
        (Step.createMarket (initState 1) 1 "W" "I" "L" "S" 2 cfgStd))).1
    "W" ((stW.pool_amounts "W").getD PoolAmounts.default) (by decide)

end PerpDex
